import Mathlib

/-
Verification of the pluto-gps-sim GPS L1 C/A signal simulator.

The development shallow-embeds the arithmetic core of the simulator
(plutogpssim.c and its second source variant): GPS time arithmetic,
calendar conversion, the navigation-message parity word, the C/A code
generator, the Klobuchar ionospheric-delay front end, the channel
scheduler, the RINEX ephemeris-set splitting rule and the periodic
maintenance guard of the synthesis loop.  C doubles are modelled as
exact rationals, C int / unsigned long as Int / Nat with the C
truncation and wrap conventions made explicit.
-/

set_option maxRecDepth 100000

/-! ## C arithmetic helpers -/

/-- Truncation toward zero, the semantics of a C cast from double to int. -/
def ctrunc (q : ℚ) : ℤ := if q < 0 then -(⌊-q⌋) else ⌊q⌋

/-- Rounding half away from zero, the semantics of the C round() function. -/
def cround (q : ℚ) : ℤ := if q < 0 then -(⌊-q + 1 / 2⌋) else ⌊q + 1 / 2⌋

/-! ## Time types (gpstime_t, datetime_t from plutogpssim.h) -/

structure gpstime_t where
  week : ℤ
  sec : ℚ
deriving Repr, DecidableEq

structure datetime_t where
  y : ℤ
  m : ℤ
  d : ℤ
  hh : ℤ
  mm : ℤ
  sec : ℚ
deriving Repr, DecidableEq

/-- SECONDS_IN_WEEK from plutogpssim.h. -/
def SECONDS_IN_WEEK : ℚ := 604800

/-- SECONDS_IN_DAY from plutogpssim.h. -/
def SECONDS_IN_DAY : ℚ := 86400

/-- SECONDS_IN_HOUR from plutogpssim.h. -/
def SECONDS_IN_HOUR : ℚ := 3600

/-- SPEED_OF_LIGHT from plutogpssim.h. -/
def SPEED_OF_LIGHT : ℚ := 2.99792458e8

/-- PI constant from plutogpssim.h (3.1415926535898). -/
def cPI : ℚ := 3.1415926535898

/-! ## countBits and computeChecksum (navigation message parity) -/

/-- The SWAR bit-count helper of plutogpssim.c (function countBits).  The C
code operates on an unsigned long; every value it is applied to fits in 30
bits, far below any overflow of the five shift-and-mask steps. -/
def countBits (v : ℕ) : ℕ :=
  let c1 := ((v >>> 1) &&& 0x55555555) + (v &&& 0x55555555)
  let c2 := ((c1 >>> 2) &&& 0x33333333) + (c1 &&& 0x33333333)
  let c3 := ((c2 >>> 4) &&& 0x0F0F0F0F) + (c2 &&& 0x0F0F0F0F)
  let c4 := ((c3 >>> 8) &&& 0x00FF00FF) + (c3 &&& 0x00FF00FF)
  ((c4 >>> 16) &&& 0x0000FFFF) + (c4 &&& 0x0000FFFF)

/-- computeChecksum from plutogpssim.c: bits 31:30 of the input carry D29*
and D30* of the previous word, bits 29:6 the 24 data bits; the result has
the six parity bits in bits 5:0 and is masked to 30 bits.  When nib is set,
bits 23 and 24 (positions 6 and 7) are first solved so that the two
trailing parity bits come out zero; the two conditional flips happen in the
order of the source, the second seeing the result of the first. -/
def computeChecksum (source : ℕ) (nib : Bool) : ℕ :=
  let d0 := source &&& 0x3FFFFFC0
  let D29 := (source >>> 31) &&& 0x1
  let D30 := (source >>> 30) &&& 0x1
  let d1 := if nib ∧ (D30 + countBits (0x2BB1F340 &&& d0)) % 2 = 1 then d0 ^^^ (0x1 <<< 6) else d0
  let d := if nib ∧ (D29 + countBits (0x0B7A89C0 &&& d1)) % 2 = 1 then d1 ^^^ (0x1 <<< 7) else d1
  let e0 := if D30 = 1 then d ^^^ 0x3FFFFFC0 else d
  let e1 := e0 ||| (((D29 + countBits (0x3B1F3480 &&& d)) % 2) <<< 5)
  let e2 := e1 ||| (((D30 + countBits (0x1D8F9A40 &&& d)) % 2) <<< 4)
  let e3 := e2 ||| (((D29 + countBits (0x2EC7CD00 &&& d)) % 2) <<< 3)
  let e4 := e3 ||| (((D30 + countBits (0x1763E680 &&& d)) % 2) <<< 2)
  let e5 := e4 ||| (((D30 + countBits (0x2BB1F340 &&& d)) % 2) <<< 1)
  let e6 := e5 ||| ((D29 + countBits (0x0B7A89C0 &&& d)) % 2)
  e6 &&& 0x3FFFFFFF

/-! ## subGpsTime and incGpsTime -/

/-- subGpsTime from plutogpssim.c. -/
def subGpsTime (g1 g0 : gpstime_t) : ℚ :=
  (g1.sec - g0.sec) + ((g1.week - g0.week : ℤ) : ℚ) * SECONDS_IN_WEEK

/-- The first while loop of incGpsTime: while (sec >= SECONDS_IN_WEEK)
subtract a week and increment the week number. -/
def incWeekLoopDown (w : ℤ) (s : ℚ) : ℤ × ℚ :=
  if h : SECONDS_IN_WEEK ≤ s then incWeekLoopDown (w + 1) (s - SECONDS_IN_WEEK) else (w, s)
termination_by (⌊s⌋).toNat
decreasing_by
  have h6 : (604800 : ℤ) ≤ ⌊s⌋ := by
    rw [Int.le_floor]
    exact_mod_cast h
  have : ⌊s - SECONDS_IN_WEEK⌋ = ⌊s - (604800 : ℤ)⌋ := by norm_num [SECONDS_IN_WEEK]
  rw [this, Int.floor_sub_int]
  omega

/-- The second while loop of incGpsTime: while (sec < 0.0) add a week and
decrement the week number. -/
def incWeekLoopUp (w : ℤ) (s : ℚ) : ℤ × ℚ :=
  if h : s < 0 then incWeekLoopUp (w - 1) (s + SECONDS_IN_WEEK) else (w, s)
termination_by (-⌊s⌋).toNat
decreasing_by
  have h1 : ⌊s⌋ < 0 := Int.floor_lt.mpr (by exact_mod_cast h)
  have : ⌊s + SECONDS_IN_WEEK⌋ = ⌊s + (604800 : ℤ)⌋ := by norm_num [SECONDS_IN_WEEK]
  rw [this, Int.floor_add_int]
  omega

/-- incGpsTime from plutogpssim.c: add dt seconds, round to the nearest
millisecond (round half away from zero, as the C round function), then
normalize the seconds-of-week into [0, 604800) by the two while loops. -/
def incGpsTime (g0 : gpstime_t) (dt : ℚ) : gpstime_t :=
  let s1 := g0.sec + dt
  let s2 : ℚ := (cround (s1 * 1000) : ℚ) / 1000
  let p1 := incWeekLoopDown g0.week s2
  let p2 := incWeekLoopUp p1.1 p1.2
  { week := p2.1, sec := p2.2 }

/-! ## The 30 second maintenance guard of the synthesis loop -/

/-- The integer counter igrx = (int)(grx.sec * 10.0 + 0.5) computed at the
bottom of the synthesis loop in both source variants. -/
def igrx (sec : ℚ) : ℤ := ctrunc (sec * 10 + 1 / 2)

/-- Maintenance guard of the reference variant (igrx % 300 == 0). -/
def maintenanceGuardRef (sec : ℚ) : Bool := igrx sec % 300 == 0

/-- Maintenance guard of the first-release variant (igrx % 100 == 0). -/
def maintenanceGuardV1 (sec : ℚ) : Bool := igrx sec % 100 == 0

/-! ## ionosphericDelay -/

/-- ionoutc_t from plutogpssim.h. -/
structure ionoutc_t where
  enable : Bool
  vflg : Bool
  alpha0 : ℚ
  alpha1 : ℚ
  alpha2 : ℚ
  alpha3 : ℚ
  beta0 : ℚ
  beta1 : ℚ
  beta2 : ℚ
  beta3 : ℚ
  A0 : ℚ
  A1 : ℚ
  dtls : ℤ
  tot : ℤ
  wnt : ℤ
  dtlsf : ℤ
  dn : ℤ
  wnlsf : ℤ

/-- The wrap of the Klobuchar local time into [0, 86400): while (t >= 86400)
subtract a day. -/
def ionoDayLoopDown (t : ℚ) : ℚ :=
  if h : SECONDS_IN_DAY ≤ t then ionoDayLoopDown (t - SECONDS_IN_DAY) else t
termination_by (⌊t⌋).toNat
decreasing_by
  have h6 : (86400 : ℤ) ≤ ⌊t⌋ := by
    rw [Int.le_floor]
    exact_mod_cast h
  have : ⌊t - SECONDS_IN_DAY⌋ = ⌊t - (86400 : ℤ)⌋ := by norm_num [SECONDS_IN_DAY]
  rw [this, Int.floor_sub_int]
  omega

/-- The wrap of the Klobuchar local time, second loop: while (t < 0) add a
day. -/
def ionoDayLoopUp (t : ℚ) : ℚ :=
  if h : t < 0 then ionoDayLoopUp (t + SECONDS_IN_DAY) else t
termination_by (-⌊t⌋).toNat
decreasing_by
  have h1 : ⌊t⌋ < 0 := Int.floor_lt.mpr (by exact_mod_cast h)
  have : ⌊t + SECONDS_IN_DAY⌋ = ⌊t + (86400 : ℤ)⌋ := by norm_num [SECONDS_IN_DAY]
  rw [this, Int.floor_add_int]
  omega

/-- ionosphericDelay from plutogpssim.c.  The libm sine and cosine used in
the full Klobuchar branch are taken as parameters sinF and cosF; the two
early branches settled here do not depend on them.  llh is (lat, lon, hgt),
azel is (azimuth, elevation), both in radians; pow(x, 3.0) on a possibly
negative base is cube. -/
def ionosphericDelay (sinF cosF : ℚ → ℚ) (ionoutc : ionoutc_t) (g : gpstime_t)
    (llh : ℚ × ℚ × ℚ) (azel : ℚ × ℚ) : ℚ :=
  if ionoutc.enable = false then 0
  else
    let E := azel.2 / cPI
    let phi_u := llh.1 / cPI
    let lam_u := llh.2.1 / cPI
    let F := 1 + 16 * (0.53 - E) ^ (3 : ℕ)
    if ionoutc.vflg = false then F * 5.0e-9 * SPEED_OF_LIGHT
    else
      let psi := 0.0137 / (E + 0.11) - 0.022
      let phi_i0 := phi_u + psi * cosF azel.1
      let phi_i := if phi_i0 > 0.416 then 0.416 else if phi_i0 < -0.416 then -0.416 else phi_i0
      let lam_i := lam_u + psi * sinF azel.1 / cosF (phi_i * cPI)
      let phi_m := phi_i + 0.064 * cosF ((lam_i - 1.617) * cPI)
      let phi_m2 := phi_m * phi_m
      let phi_m3 := phi_m2 * phi_m
      let AMP0 := ionoutc.alpha0 + ionoutc.alpha1 * phi_m + ionoutc.alpha2 * phi_m2 +
        ionoutc.alpha3 * phi_m3
      let AMP := if AMP0 < 0 then 0 else AMP0
      let PER0 := ionoutc.beta0 + ionoutc.beta1 * phi_m + ionoutc.beta2 * phi_m2 +
        ionoutc.beta3 * phi_m3
      let PER := if PER0 < 72000 then 72000 else PER0
      let t := ionoDayLoopUp (ionoDayLoopDown (SECONDS_IN_DAY / 2 * lam_i + g.sec))
      let X := 2 * cPI * (t - 50400) / PER
      if |X| < 1.57 then
        let X2 := X * X
        let X4 := X2 * X2
        F * (5.0e-9 + AMP * (1 - X2 / 2 + X4 / 24)) * SPEED_OF_LIGHT
      else F * 5.0e-9 * SPEED_OF_LIGHT

/-! ## RINEX ephemeris-set splitting (readRinexNavAll / readRinex2) -/

/-- EPHEM_ARRAY_SIZE from plutogpssim.h. -/
def EPHEM_ARRAY_SIZE : ℕ := 13

/-- Scanner state of the ephemeris-block loop of readRinexNavAll: the anchor
TOC g0 (week = -1 is the initial sentinel), the current set index ieph, and
whether the loop has hit the array-size break. -/
structure rinexScanState where
  g0 : gpstime_t
  ieph : ℕ
  halted : Bool
deriving Repr, DecidableEq

/-- Initial scanner state: g0.week = -1, ieph = 0. -/
def rinexScanInit : rinexScanState := { g0 := { week := -1, sec := 0 }, ieph := 0, halted := false }

/-- One iteration of the ephemeris-block loop of readRinexNavAll, given the
parsed TOC g of the next record: set the anchor on the first record, start
a new set when the TOC is more than SECONDS_IN_HOUR past the anchor (with
the break when ieph reaches EPHEM_ARRAY_SIZE), and return the set index the
record is stored into (none when the loop broke before storing). -/
def rinexStep (s : rinexScanState) (g : gpstime_t) : rinexScanState × Option ℕ :=
  if s.halted then (s, none)
  else
    let a := if s.g0.week = -1 then g else s.g0
    let dt := subGpsTime g a
    if SECONDS_IN_HOUR < dt then
      if EPHEM_ARRAY_SIZE ≤ s.ieph + 1 then
        ({ g0 := g, ieph := s.ieph + 1, halted := true }, none)
      else
        ({ g0 := g, ieph := s.ieph + 1, halted := false }, some (s.ieph + 1))
    else
      ({ g0 := a, ieph := s.ieph, halted := false }, some s.ieph)

/-- The full scan over the parsed TOCs of the ephemeris blocks, returning
the set index assigned to each record. -/
def rinexScan : rinexScanState → List gpstime_t → List (Option ℕ)
  | _, [] => []
  | s, g :: t =>
    let r := rinexStep s g
    r.2 :: rinexScan r.1 t

/-! ## codegen (C/A Gold code generation) -/

/-- CA_SEQ_LEN from plutogpssim.h. -/
def CA_SEQ_LEN : ℕ := 1023

/-- The per-PRN G2 delay table of codegen. -/
def caDelay : List ℕ :=
  [5, 6, 7, 8, 17, 18, 139, 140, 141, 251,
   252, 254, 255, 256, 257, 258, 469, 470, 471, 472,
   473, 474, 509, 512, 513, 514, 515, 516, 859, 860,
   861, 862]

/-- The G1/G2 shift-register loop of codegen.  The registers r1 and r2 hold
ten values from {-1, 1} (initialized to all -1); each step outputs r[9] of
both registers, computes the feedbacks c1 = r1[2]*r1[9] and
c2 = r2[1]*r2[2]*r2[5]*r2[7]*r2[8]*r2[9], and shifts them in at position 0.
The match on the two feedback products (always 1 or -1 for register
contents from {-1, 1}; the final branch is unreachable then) makes the
recursion evaluate the registers strictly step by step. -/
def caShiftSteps : ℕ → List ℤ → List ℤ → List ℤ × List ℤ
  | 0, _, _ => ([], [])
  | n + 1, a0 :: a1 :: a2 :: a3 :: a4 :: a5 :: a6 :: a7 :: a8 :: a9 :: _,
           b0 :: b1 :: b2 :: b3 :: b4 :: b5 :: b6 :: b7 :: b8 :: b9 :: _ =>
    match a2 * a9, b1 * b2 * b5 * b7 * b8 * b9 with
    | 1, 1 =>
      let r := caShiftSteps n [1, a0, a1, a2, a3, a4, a5, a6, a7, a8]
        [1, b0, b1, b2, b3, b4, b5, b6, b7, b8]
      (a9 :: r.1, b9 :: r.2)
    | 1, -1 =>
      let r := caShiftSteps n [1, a0, a1, a2, a3, a4, a5, a6, a7, a8]
        [-1, b0, b1, b2, b3, b4, b5, b6, b7, b8]
      (a9 :: r.1, b9 :: r.2)
    | -1, 1 =>
      let r := caShiftSteps n [-1, a0, a1, a2, a3, a4, a5, a6, a7, a8]
        [1, b0, b1, b2, b3, b4, b5, b6, b7, b8]
      (a9 :: r.1, b9 :: r.2)
    | -1, -1 =>
      let r := caShiftSteps n [-1, a0, a1, a2, a3, a4, a5, a6, a7, a8]
        [-1, b0, b1, b2, b3, b4, b5, b6, b7, b8]
      (a9 :: r.1, b9 :: r.2)
    | c1, c2 =>
      let r := caShiftSteps n (c1 :: [a0, a1, a2, a3, a4, a5, a6, a7, a8])
        (c2 :: [b0, b1, b2, b3, b4, b5, b6, b7, b8])
      (a9 :: r.1, b9 :: r.2)
  | _, _, _ => ([], [])

/-- The two m-sequences g1 and g2 of codegen, 1023 steps from all -1
registers. -/
def caG : List ℤ × List ℤ :=
  caShiftSteps CA_SEQ_LEN (List.replicate 10 (-1)) (List.replicate 10 (-1))

/-- The chip combination loop of codegen for an in-range PRN:
ca[i] = (1 - g1[i] * g2[(i + 1023 - delay[prn-1]) % 1023]) / 2.  Reading g2
at offset (i + 1023 - delay) modulo 1023 for i = 0..1022 is reading the
rotation of g2 left by 1023 - delay. -/
def caSequence (prn : ℕ) : List ℤ :=
  List.zipWith (fun a b => (1 - a * b) / 2) caG.1
    (caG.2.rotateLeft (CA_SEQ_LEN - caDelay.getD (prn - 1) 0))

/-- codegen from plutogpssim.c: the caller passes the current contents of
the 1023-entry chip array; a PRN outside [1, 32] returns immediately,
leaving the array untouched, otherwise the array is overwritten with the
C/A sequence of that PRN. -/
def codegen (ca : List ℤ) (prn : ℤ) : List ℤ :=
  if prn < 1 ∨ 32 < prn then ca else caSequence prn.toNat

/-- The zero-lag cross-correlation of two C/A sequences over their 1023
chips, chips mapped to -1/+1 by c*2 - 1 exactly as the modulator does
(chan[i].codeCA = ca[...]*2 - 1). -/
def caCorr (a b : ℕ) : ℤ :=
  (List.zipWith (fun x y => (x * 2 - 1) * (y * 2 - 1)) (caSequence a) (caSequence b)).sum

/-! ## date2gps and gps2date -/

/-- The cumulative day-of-year table of date2gps. -/
def doyTab : List ℤ := [0, 31, 59, 90, 120, 151, 181, 212, 243, 273, 304, 334]

/-- The day count of date2gps: days elapsed since Jan 6, 1980 (the local
variable de), with the C leap-day rule (ye/4 + 1, minus one in January and
February of a leap year).  C integer division truncates toward zero
(Int.tdiv / Int.tmod). -/
def date2gpsDe (t : datetime_t) : ℤ :=
  let ye := t.y - 1980
  let lp0 := ye.tdiv 4 + 1
  let lpdays := if ye.tmod 4 = 0 ∧ t.m ≤ 2 then lp0 - 1 else lp0
  ye * 365 + doyTab.getD (t.m - 1).toNat 0 + t.d + lpdays - 6

/-- date2gps from plutogpssim.c. -/
def date2gps (t : datetime_t) : gpstime_t :=
  let de := date2gpsDe t
  { week := de.tdiv 7,
    sec := ((de.tmod 7 * 86400 + t.hh * 3600 + t.mm * 60 : ℤ) : ℚ) + t.sec }

/-- The Julian-number part of gps2date: the calendar (year, month, day)
reconstructed from the value c of the source.  The casts to int truncate
toward zero (ctrunc). -/
def gps2dateYMD (c : ℤ) : ℤ × ℤ × ℤ :=
  let d : ℤ := ctrunc (((c : ℚ) - 122.1) / 365.25)
  let e : ℤ := 365 * d + d.tdiv 4
  let f : ℤ := ctrunc (((c - e : ℤ) : ℚ) / 30.6001)
  let dd : ℤ := c - e - ctrunc ((30.6001 : ℚ) * (f : ℚ))
  let mo : ℤ := f - 1 - 12 * (f.tdiv 14)
  (d - 4715 - (7 + mo).tdiv 10, mo, dd)

/-- gps2date from plutogpssim.c, the Julian-day based inverse.  The first
cast applies to an integer-valued double sum and is written as the sum; the
other casts truncate toward zero (ctrunc); floor() is the real floor. -/
def gps2date (g : gpstime_t) : datetime_t :=
  let c : ℤ := 7 * g.week + ⌊g.sec / 86400⌋ + 2444245 + 1537
  { y := (gps2dateYMD c).1,
    m := (gps2dateYMD c).2.1,
    d := (gps2dateYMD c).2.2,
    hh := (ctrunc (g.sec / 3600)).tmod 24,
    mm := (ctrunc (g.sec / 60)).tmod 60,
    sec := g.sec - 60 * (⌊g.sec / 60⌋ : ℚ) }

/-! ## allocateChannel (channel scheduler) -/

/-- MAX_CHAN and MAX_SAT from plutogpssim.h. -/
def MAX_CHAN : ℕ := 12

def MAX_SAT : ℕ := 32

/-- The scheduler state: the PRN field of each of the 12 channels (0 means
idle) and the allocatedSat table mapping each of the 32 satellite indices
to a channel index or -1. -/
structure schedState where
  prn : Fin 12 → ℤ
  alloc : Fin 32 → ℤ

/-- The initial state established in main before the first allocateChannel
call: every channel PRN cleared to 0, every allocatedSat entry -1. -/
def schedInit : schedState := { prn := fun _ => 0, alloc := fun _ => -1 }

/-- The first idle channel (first i with chan[i].prn == 0), as the inner
for loop of allocateChannel finds it; none when all 12 are busy, in which
case the C loop leaves i = MAX_CHAN and the allocation entry is not set. -/
def firstFreeChannel (prn : Fin 12 → ℤ) : Option (Fin 12) :=
  (List.finRange 12).find? (fun i => prn i == 0)

/-- The body of allocateChannel for one satellite index sv, parametrized by
the visibility verdict of checkSatVisibility (the only part of the branch
condition): when visible and not yet allocated, initialize the first idle
channel with PRN sv+1 and record it in allocatedSat (skipped when no
channel is idle); when not visible but allocated, clear the channel PRN
and the allocatedSat entry.  The clear writes chan[allocatedSat[sv]].prn;
the state update is phrased over all channel indices matching that value
(under the scheduler invariant the value is a valid index). -/
def allocateChannelSv (vis : Fin 32 → Bool) (s : schedState) (sv : Fin 32) : schedState :=
  if vis sv then
    if s.alloc sv = -1 then
      match firstFreeChannel s.prn with
      | some i => { prn := Function.update s.prn i ((sv : ℤ) + 1),
                    alloc := Function.update s.alloc sv ((i : ℤ)) }
      | none => s
    else s
  else
    if 0 ≤ s.alloc sv then
      { prn := fun j => if (j : ℤ) = s.alloc sv then 0 else s.prn j,
        alloc := Function.update s.alloc sv (-1) }
    else s

/-- allocateChannel from plutogpssim.c: the scheduling effect of the pass
over all 32 satellite indices in order.  (The returned visible-satellite
count is used for logging only and is not part of the state.) -/
def allocateChannel (vis : Fin 32 → Bool) (s : schedState) : schedState :=
  (List.finRange 32).foldl (allocateChannelSv vis) s

/-- A run of the scheduler: the state after a sequence of allocateChannel
calls (one visibility oracle per call) starting from the initial state. -/
def schedRun (calls : List (Fin 32 → Bool)) : schedState :=
  calls.foldl (fun s v => allocateChannel v s) schedInit

/-! ## Executable integer checkers

The embedding above uses exact rationals for C doubles; the core rational
operations of Lean do not reduce inside decide, so the finite enumerations
below are run over Nat mirrors of the integer-valued computations and are
connected to the rational embedding by the bridge lemmas that follow. -/

/-- Nat mirror of the day-of-year table. -/
def doyTabN : List ℕ := [0, 31, 59, 90, 120, 151, 181, 212, 243, 273, 304, 334]

/-- Nat mirror of the uncorrected day count of date2gps, shifted up by 6:
preN = de + 6 so that the value stays in Nat also for the days before the
GPS epoch. -/
def preN (y m d : ℕ) : ℕ :=
  let ye := Nat.sub y 1980
  let lp0 := Nat.add (Nat.div ye 4) 1
  let lpdays := if Nat.beq (Nat.mod ye 4) 0 && Nat.ble m 2 then Nat.sub lp0 1 else lp0
  Nat.add (Nat.add (Nat.add (Nat.mul ye 365) (doyTabN.getD (Nat.sub m 1) 0)) d) lpdays

/-- Nat mirror of the day count de of date2gps (for days on or after the
GPS epoch). -/
def deN (y m d : ℕ) : ℕ := Nat.sub (preN y m d) 6

/-- Nat mirror of the Julian (year, month, day) reconstruction gps2dateYMD,
written with Nat primitives so that the enumeration below reduces fast. -/
def julianYMDN (c : ℕ) : ℕ × ℕ × ℕ :=
  let dj := Nat.div (Nat.sub (Nat.mul 20 c) 2442) 7305
  let e := Nat.add (Nat.mul 365 dj) (Nat.div dj 4)
  let f := Nat.div (Nat.mul (Nat.sub c e) 10000) 306001
  let g := Nat.div (Nat.mul 306001 f) 10000
  let dd := Nat.sub (Nat.sub c e) g
  let mo := Nat.sub (Nat.sub f 1) (Nat.mul 12 (Nat.div f 14))
  let yj := Nat.sub (Nat.sub dj 4715) (Nat.div (Nat.add 7 mo) 10)
  (yj, mo, dd)

/-- The inequalities making every Nat subtraction inside julianYMDN exact,
so that its result agrees with the integer computation gps2dateYMD. -/
def julianGuardsN (c : ℕ) : Bool :=
  let dj := Nat.div (Nat.sub (Nat.mul 20 c) 2442) 7305
  let e := Nat.add (Nat.mul 365 dj) (Nat.div dj 4)
  let f := Nat.div (Nat.mul (Nat.sub c e) 10000) 306001
  let g := Nat.div (Nat.mul 306001 f) 10000
  let mo := Nat.sub (Nat.sub f 1) (Nat.mul 12 (Nat.div f 14))
  Nat.ble 123 c && Nat.ble 2442 (Nat.mul 20 c) && Nat.ble e c &&
    Nat.ble g (Nat.sub c e) && Nat.ble (Nat.add 1 (Nat.mul 12 (Nat.div f 14))) f &&
    Nat.ble (Nat.add 4715 (Nat.div (Nat.add 7 mo) 10)) dj

/-- Nat mirror of the date roundtrip for midnight of a calendar day on or
after the GPS epoch: recompute the day count, feed week and day-of-week
into the Julian reconstruction, check the subtraction guards and compare
the recovered calendar day. -/
def dateOkN (y m d : ℕ) : Bool :=
  Nat.ble 6 (preN y m d) &&
  (let de := deN y m d
   let c := Nat.add (Nat.add (Nat.add (Nat.mul 7 (Nat.div de 7)) (Nat.mod de 7)) 2444245) 1537
   let r := julianYMDN c
   julianGuardsN c && Nat.beq r.1 y && Nat.beq r.2.1 m && Nat.beq r.2.2 d)

/-- Gregorian leap-year rule over Nat. -/
def isLeapN (y : ℕ) : Bool :=
  Nat.beq (Nat.mod y 4) 0 && (!Nat.beq (Nat.mod y 100) 0 || Nat.beq (Nat.mod y 400) 0)

/-- Days in a Gregorian month, over Nat. -/
def daysInMonthN (y m : ℕ) : ℕ :=
  if Nat.beq m 2 then (if isLeapN y then 29 else 28)
  else if Nat.beq m 4 || Nat.beq m 6 || Nat.beq m 9 || Nat.beq m 11 then 30 else 31

/-- The full date enumeration: every valid Gregorian calendar day with year
1980..2099, except the five days before the GPS epoch (Jan 1-5, 1980),
passes the midnight roundtrip check. -/
def allDatesOkN : Bool :=
  (List.range 120).all fun yy =>
    (List.range 12).all fun mm =>
      (List.range 31).all fun dd =>
        let y := Nat.add 1980 yy
        let m := Nat.add 1 mm
        let d := Nat.add 1 dd
        Nat.blt (daysInMonthN y m) d || (Nat.beq y 1980 && Nat.beq m 1 && Nat.blt d 6) ||
          dateOkN y m d

/-- The chips of a C/A sequence as Nat (each chip is 0 or 1). -/
def caNat (prn : ℕ) : List ℕ := (caSequence prn).map Int.toNat

/-- Tail-recursive evaluation of the base-2048 digit encoding of a chip
list: caEncGo l pw acc = acc + pw * Nat.ofDigits 2048 l. -/
def caEncGo : List ℕ → ℕ → ℕ → ℕ
  | [], _, acc => acc
  | c :: t, pw, acc => caEncGo t (2048 * pw) (acc + c * pw)

/-- Base-2048 digit encodings of the 32 C/A sequences (chip i of PRN p at
bit position 11*i of entry p-1), checked against caSequence below. -/
def caEncTab : List Nat :=
  [85879883230515536412939670929429156019593696902898646872823261918753406878806274428928016498021819995636830724388641217756862888611458822356724595197595787846090126113020449734627940891791276278146659682287930038182373877708044674271052920038423906674581979455489353934073573671153765294073053433557776707083442621257173186981741151509221550463415856783396669779953382325827140256470699897346072546469017258982930170970994817489736643246940285684773668836040926304876348621025393216794644573530400111995930609640207410037502658628043078112421975561279808534873397564430675486001871960905412893477931165078413331763352944068907096153167227772102360782687629246511829552995893559967810405978087336239599146557325795830453174958182331378108374400619198149321932520313780379958024367777774835262236647328162173805048836814030064196290520683607070633650267689162704108831891284767186801189078794039574805013812544799017306876507949209282310061870267582338735202403866085714805984999256392106171922307168193436526495324440668763457219291025302967833516044390903096910867552138127692342060761603789565075109369110987793355680822497323741091337324045466645309102366940467715379023424701618697273436874223285669750863306281573192627276160452834649746873655320056041192042646900100334946181881629127314866565014132372388815647480604367019570676443524789567737427458183668819333363459442223170295054586327784695957921293272413413232360832220705199168652759040186642754075189679041511202711621990514891348446972677007469758447334003742311090686232114775926502150719653346442968415646339635577896753664982564156238806168629079072206117152349761779847279466529416401817404634176884429302342658138548063534632415898819842194849935229543616959395674441975514659102059019767041206024834469553839938026807985970514021925867917491964970788688947387001303553820935402050552049034095963422774207828579466825531119939628470579880169427776565615674628123035845354908720675880514908298888196769585899050334013068337503716750207493485346696801459304348816729950147741768385546963242661057288830664026609197191090242499688043058489120988795270816765508993185125274935318438017831682052822806338052207722624404674984514085390173523152833883895103269360072075866247731217196927640186114872275545735685244427579818336945582606875240262457712692153749587060831756478523543583228875207058653812916239929526757902705645675540197746224660042218919148586789235041064844813999014900637824284427799084416157635534018635494948063651573665760383430290510706871021202513638760179223900082761111465745179418580855321297263735928477775427771447744188081570558086721414739482629633469813111098988582579619056292162284432345146153454592293124616052150706092426918160580521913750008523797909992493343883067479653838272084503286606251480345960862044350544191416825878613577616961053446812637106082113854582289960217193281710311039493748831925064117100556023888536912431535249054978367223834392740335393760985052068198506601226519095303995464697620471488019918476612808508029076759653362473671144199602090480058886394000329406621910129597333967929737099455246734804647950826947295443419805261542995637552268402964810389822773783481958297978290105692444288568897543857264239165032619532930282732138757666923703139431747433902523113604945482555885973896233929302642627300852873104863048129457352255504483361683612370945,
   175882000876571178304543255850472889403123558876633506169470721361041186231789964154174192500643868895274366344116174083841598734176955485991442509981900779267246271068576581045035738762749645975995107866593668400609187746189263124311256854951575620158280778406370657933089371801465669860090573325056893875223448969485006074520060768822198751634208684378902692843988980801396858482736730499712538457798274573607387179761020770323119502502700665858416050251074312301728441508771595699865388090857924613029019545396821632536960063349004372671569647184664137605198159904154525082400659007149863038077504820974833355743338624996667857199951573482269832705264926412760957487696519182437115970272206045499173236944212743785485718623186971327546467323622688337559318255364342269068533994168507834720601848029455878521639968500996122446948645126807517010448415059455431311654131812959758282750753438346730958750620423796694689036403030845033690569086470223131376510870176692777968183525716329869322961036155991934945854327135271362427952984370141421498131427852321571834948595317719258216699215793669766995990953649069793988032232048475119002929246856542288742632778113383517743846192571278475888403354301458751642064996887137804758675084569051029401232120430542879223021553874785463312910007226736939463498482061829469475437785559998044431518560618640559431529693715807191165102437208593549370867360578868532156285477902665551237391728855261340144727350251729890642652097818615866481619482321018660363994627762425092881797006337357459441682381219957294524947899215766342314626434968407456352006881608101098907719489775583340994535282697119496629322598306676362939311698709942349861104901301176886569282069177389310830001774997780284731754459363315073893228128318931468132508391101027296506879816840671694530339345428101708783992485534440378984232682947320360244569184724710853043437684468216059892781580441150131973859574527526477235327282023087047612983233892584447733872124175464501243133747004487906638427916352818078796582479023688915880311221764317199171776298375644634378959860996897095662869891360242430534957624187849938068440140495730454164397975171832082284159853953461502376187105290288040592222997219041348360940578995139802913110716229919711227789781182935001423773531403924967416522979679846771474820609671606013032828609585438481800171923322165162445182274791487646109734067989996408514920480320524119467645775667868851776574688063088580864526648288441173383383371795109235938883396334473245048637161488602753554599709215344094280550397622767999831711608291959317717581130250615721912627026128763854341039584686145183909121439970876412856956651907060638714512310249584842459251049093129726018392497207227695953370856274181862238211683176547432726290190679633357567073248182177536921827790831399727160766198764392863314912477789657812164665012694932920308478568885143164551222089000714000468070663037880843429483493011539594742947801222362562562165142090382495616670716921428112673783860707745079117803960000304135027693370472394599806961317830241748693965369612512211650497760743708144896104866254400352399409363919647837714949200018327071893840209830591517507867303943685461334701155483074518705724246808581824260946617525791082496448486109601980032275559547088743848741964083039203667372113764025926448218891677057993814122840466403318446869383544810113136574072833,
   360206337795197297807973745171981475248732923209744216659592424878475115648218191483270636772726362593362676763380255754938921320427321993402503372977485957422514786975946841272938843708734790661498227261939672877653745330043857832967112078070008258520958617365352505914407760956180616909411429601916487133666981070879579956296275617546754720680432751442975669524799902362045365433662077895073800220051194634909880105792503003254210333547087835168811026809484576296532053424857217632200741981418622349033304579383993564091136847775245233079379933359591641080530857802589767227630576517917946106260391005560958138254633266154700106922134359311699937582424130737014554264151055139702752867260986103648384248355881316347711057679002037537031988998010981342594656745128255380142251710247210974033532474073057776823765056137508644748627498969083893612967030430430397582725514274366346057739646366906868991417747457331177310231887734270764088236984701347444463235814585033877217125282051211978382301727556809417099622230121502082723642482002413813753759943191980987162107711944935065767616833617411016467867322560321275362528817242056142075567916880441225209389119905157236919993464228784837903256310994891028706488822146250489111107929784736282499154824985347676444699305717084713973024555198360097356231373136694301207429277279768537369592862675855063254538747443638302541917029587279697852430092555612683710505596509036157655390256618237899851968107175400704522333817420456709750864024315966724744645547517946013501518030053895091605317818404352940724598652074779969282203039054265962269881454391436545871362047339860537381116021562767444862164953720670559869276640481811812297239844489448338004176467838703958436486723239250648800360871786408925550465429658480605002924098276959396462807974081914387508011723574934273665290886027927014828496263237377808165864517406410565968510413176512878101887945611945514304684082574630001516996619142448781307345135377280711219488968858790591036930932532846605782577017978188308460281666487885313883624912299210378797538742303909151482925014962160939685153064209701969561853118113472314996885156030168787711197600001598511360109582765210252475061819790950487863383587940929949387290286246349782104464514446021697612837772915614316001103128609601065900480832395218801498237044332113004154480683799680617520440890957114902995769174035433763499802756947367535285213839445382401038131388030935776163966811943114087341278156577379652780438618631509240930595068492985488617206780378348756704463517501794331437503500060752081894304566734298299571393606323878287912626498178023282904059504082804705317823201378672494694630747917134759909268274883112048915099742049522319704957896263382045729072850385762530096913973505488793214119179971934416246745073006741787243430876166551756020195122391104271554669825610779470723895375667788235412955775776827366908707651567687421648614009664096842520463627325516753060368166246421263572631588204923258606543129133431195485337873521090434798078165150225190656855772079810928621558595096758095976764624034045099445406183700331862607307777987098461154499003764076844044974313755443293947840254395291948888804619794643594255155154712101788730330290144129167611692427268932967924178345240674274360223840344480884556504303724343708988684389174406542955577772309283082325571479988010487044736089122742486134075764508673,
   737702579804564086386089965722319034043293832051142308821949051261788911296381453543279612344567776210875704496255259156903658329773964722247847834628885201530445150702299433725624173550492435064842471497823323069065676011618930536384516816603060455535524636511613858245159652575018969214391551189633327024632862755403692445387054776988055383556875037758456730205034273569044255844130880693674368982792387897637989702990346861528263466321115070665612726324789847551629234230538643011845960149042833517990553520978535018630016317049650932017881242528015379664815973908115630956110414538685668427545930811328951561349363344323972355168721964426022477837838838737412017516978428940742660031631817073509223986458119256069347470694090538258561805939580685916473574210674333145153427863283247782869683278492362506559795229887102648249263214311906135541303759022246812676034899034549228197508887090809754815727651967287777493011164569895582558082505879197358675665750100193483347483602207885668942591482550214783388694579425591219974328396039448750882388221005950049116002965967340354481775852821479228104871443746277924524008285156963547550698920200772163213114630369059293931932563473011954507519880115469377096901157950486183680262385399822698363697531461907904532610877630579398982824484871953236666576724524708904354154570423632196437121299614435970804111872630897545821070851442118884087486483717069492337927166118157191326307108875429611688941045609689977762068244179555977264157970342626308329666133467451393933305523668666339113973098684946963813661534986219319537327584466041817540715618432210807096953059936313900729710275223061955100029695018130091850404752751182972027729806528423640531308880211233694327734056695925837944525118903841270216554354209051749266345476034587341082075011294712260174043769683945690018549038038355377678067493646881618206451388645869041279340342639952532915063854935312855338514509139124509711259654222468202528394034070396257845207816580431922787134142612572413690491238246436543069413544485690650904492508471322629817289132647958052552874325781315593896848559804129461242386274213039153639721958215794306311928561116825660718351426386761071140919418410981015299023547715827156867193156337702015108267120284828183606436524261892877955080827995608423539140044238266199918708660945659886367152108749904482441589639040573139667277332878953254980834820932289496624827209012005899124675978359178762193705158127568954440284398214789903246021791557654232184353333605123877403283270619859656839927807723625137858841027123642773000120434219369869253169200641738502119234408089692430274489568020986914788872656242830633514578002235559380995095935781899339963705974846163040330014784874327669662104662817672289978215624483562338183607341823907695265914746009287416778511185615076152867682503477379852243858829300782597802988605594874712831905168959630040517777915898187174937772627548302615922128430161778844291213204261939550434772233551798336169841363793221328442852957292091311053151993307483748266480557774030428428479449129203019025795098174603441720542619116796903030380019806708647995280847705540837827352273441205440934937363194870296752827091454719274240241465953801916828804063682819606316594643137721813917490072784697451994673003723942963668370715055484381209743319603296288534390942412273067853171866172754734962684136638870271903871640048502785,
   737702579804606019922818731795599493227228577265534761836568148549894077113990031234159846544928535023660537182886099410529763783059357116627754236556718445380518587169474592584721528727813488134062863902443154538659284032801004596551815381696232874893071041409452883199310650992885454833391467567811751629478821269526780456386685449391480281924498682025545252297638084103145264682440400663098833230189888130790288988379903963058109939710212381041318571626214608215783483550320307217275087803635926167174506699153837513178260000468533590341602555573266041495142082502479081954735874113600014085256267971139014560368054231123227749451402124551361155408119294723534303016524848087312661545972201900821096092905693858191752096271002685847277351762177838564822063540253952602161665530781745827945565047906251911148446045490197495800450989474625865189450992848282492257351288863468837248897399383536583614292256280622162872924740080512668655221073910745479196670696601995017542615222257626995710487524921250937591646373998734401079272832819547774298538180389025227509439730888291494323459955444234177662318145449325206623520133874167779560355951164265528780252636469255027405208565452453974783142903247207165259803988069050179961220492267763514018949052772538101576704122593171390670058630405676955583174948025711742267873530575483487354646066776748694012813791528996959087850933694577547037324937974922651807211630827775305673422967068814040010409424197595051145436664873654943961667396854086251159128495683238733397298338106859026106605887764590294677986093870636372999560659182814443118482493303681881368711105482780624090577950007410686414009403082341485185705224201183655645157588561368675620914681965811352581839539783840225065670861477491185919436967784989489808959830881528560421392067375551830846472187767204295890631269212071261230598796919698498203685638908762275259941124130340465100085551522165485560712599166605761672635983429374265653648366898704688414825149172476273862064043638417825277894105887833590669713155265380527561432051242325666399054214164670006954118550185828648245092428244893466342485319728101899335029991772651520454351520401003049861958407116201729400743824266422530802307305639046074663806521448521512297731741576322415131641076939265461344888120744770834526679786866843637325624553207916725070795130868547376055029586847686426424354445417711755461952296007158015058832731504967118835251732961759744181162109547292333124134792322414117417653121440146850683617322485144882626288226969957958868385578578039542952977600371698675791395925596407449918876826526329187000328441286121040975131729600017479346691959625947467864581612352658530335496659002617355718783856958787832724995197640970219327818789614006854155022745599966324198230508632342955722921048896168543682328159362805884848281159237129417233219983990649300875265022266606005433448673974577477585570505929711138090607458474405999957520777815621573354652264983387444254757828042931184055896044590093880482789046920465967643867237605163655389421223572626760898510231292845210053043410103012416844480037546980587759659731145435508664206087232503496382242989911627053918633029214873149247643386434069202141326924283681369534679510424258698405086675254254706785589948116279279744762030495596992554078081216701584297647882531918638239645341826318733308395827439715937548592381841184766878101613792198657,
   1510814883439833128822408122452997863102097744056003076412687773887403209452517645775198888953980332651713232007169818732230520401944766615450722627937778229759864028284290994223669759035485678370737137591985666900874797394199691224557508348415230224281203315487017854941890806909680870956336589532577844110658991023654219781657397196377798230588021476673642587647393332966180968969402030978221929434814760065195715674643287019991219097250095192817340295379169394871974062018301914050804803345157539393378295119370568269683950085705254812802578826061959616703757240120628906000289043929248094072660837911971521188285950367999625579994893677491373256101669836252106101082047432872904720921637108827511407536925827825570177753643487136925746077167316381513166958510203866996448670456668113279896940821518369550953994338789033830930608566501217693628239217129443017577887777585524852394510058073583729600971221809977854234264531210364613877687016283607590164546923408354286188440452095118887989125463348399989359167202779275511037255363287849847008519141539501378056923093053462812528804658085338664053563993418133974692505924158224198492318255256554020517132416874258077230061045247731756727037604996007399951060609302290994939078115187484262594200981452279673858877909933337621315230831894079139812399717340713100844743071896511430330287911300369654490661956741655890419308790436865031576274026876298599977386221363643707493408731797154522276468292567306765209684470496765410925893098735149903542233640187445855333284533356463340571726879547128508030227736584908649074933970086841928170863693960967058901149937585792966048751673540736002690387689326370519607010971726247043452099199835329316908432635595344124211865562592019797635208949749994669280710400943721345901660200863695441076971928617457858086188337539682501358821601425197224409093171249250103866548473578441420885135409379452821838154217728941755243721096142184645609555101617374347681319406693894747083860366224101408803806655245859170820168194904286926209920913578283401975825012209408674929150811855357798499957057403722726653617781442663512020247209882936920166028312300000418707136499823004499502135554588047680544738082287718670484405414570418009873458913695888209200602586691031838230311993033206825485076721108216491158990793431643046024342364429030049510875593048535295168493102952622966487530181618264029384147751158843784009878874561353537706497110128781207468246514267524815445573471772908366712392834200774380241528766035585564140270818655023190254570222549383019602045664667854285370624568526335198851335082034222165037963262712000526184779336600918152000466375882929269457735853281730026441086907314483617997484356340164712471960923395219162451469062069327147103780730019339301416726774387336725003238046534991605706688134127607905242818089690559807459525438520198808380364912426056899885666466002183267552609960622168752924211052369984725747713653403655785482914246594466891334994785613432039148992668850000590978068344462866945963550361764615814608181042901379442854526869006146592536137023348163582188572579917701412677804905299433417294780270352731473707034869597271018095398616990097546158099742004950888728703039454304037949427579005266648391323996677124177544382321612999049634752867361079755162474222027937591059305678553562427474474038253509154664968647844676713993224344876927969523021208511934629889,
   360206337795217773167706972790682487428253999318098357865067122387408003757006077011522791243848601069861240815838087317560587096129699928928450296128112878678534184301103486793490623987642800291872267843406244094695734541004587285284046119562439405061789492572856339302497494213608900248657728512956089622694325852957861626192436474679778259620355285404028931887572377869899421293467646015057467436132944439984559347397143307257138457582826580081722090007728788227986712814220331081075507827420048811638910831358845010501913457470274864467700615416005513753901840614755167485551591372818500985380183186367751412280174917635473647673293714897664136369782659203302431223896971571051375532001036449396721999024767627069307093296411214656676039970487296310775095955528329671618601638546145957178806703337877564526463501254905042288067441856926365703951571068012170057999338242041314849887410370363550272923497483704663879897331070534489737416776990097504080469423656108707665974507852661227338163848448947733263066603284924520929969340579687699489027511280635709112956515748820632916297997832332738557522349271221364938909689538521894660926201462712735639543535164782422975258285983368083039719302163715273557464594627263256061916084391110251163158770751416979987928916778844836334603294723178837397754011475718828388567817285418709261599074296803839547674860522733203985440672552414908146654676335267077637182884282622946288221164565561831999778329296383565918906258877087608378077208641931324588340777504173161445997748716306988657749825554180146430553577322134269465561835635392999350599633179574989609645473878197243590534918762015492065748978144747671651967216101336208476541965248724767873734224608472307542602184222324036332075200223131430156673316363382954110397355530960037241772874358641392133955735858621088896607726309660780515648253700136386277592500472512929594208113556238870065194182803801311814049762891934155154138294488734984752941827889847963858313913449833986748160410855043131487971686240018412813954036942805194076005628735078038435528664009047502355291885179358603995386890145771999597852383189180416293659679407707184638974854803205859619484920115281253218680064310633790716002860187157785396628683689586617957258185712821385846527089377874150383089120160347023882393683050388763126899482070730566642505464198007573166172226741511826489860141221625955380129966108275263575765341436519218642204904369273386371099297378423787684831033113149694902977044410365686333067461199666197247300821284339863777764995830508654429593223290358985347053756164555230278091491784409397131941350753107481635228166892843476370350691448206717919937799377081352207403172411649638999689022445995501918279656286308840813548200806931705284431646519971484580281458679293670040253146180549209267009358486667467380262188809500388036015882490403887457738248777331301479667119235996403756543588904148552467566554391666063425560488490851123006044266935710236425161932645752333325843437916426341830571500463079911471552400470827738854560146488647039308785972302835501220475286280945793068449992582346028318663988162038295391816302368633137600589180550168121418971859546876023611426133498207852238847396538458762474817473674232482142850331424602980857833937486563393361554313313586958750480181998326727532555995692995209639785288444853843221216271978057970809534716057992949598063375155201,
   737702579804606019922823611118127521255313054728835038111632950261880528928102933374715021347223655573198554951926810470681476255591056964418246388905762273236469076751881803344598401086357989360095361344899621100667861012952768987127800522035554799374634100425501941019324221996902403117952189617037386974187012676336963430557607448775617333320620816191001106529971227476033146159028882527544350471037094222132188834345533989409367092171436154292530732883216504905003555646010927121932599796006399883968141726414665591922568644889264896643905801616276887620621394289554539209487618895836387489264482503994342545691701109611830809672719196828809130456008806293888835563534593332724996110195205209179437794778063162218573784833292367793032072780679629607028883010534583065061496941607204448197202471544867180523332381716726853638737473488583135688319810115208228218489104318748258895424310817289690785427261552679688542605207916725814415076063289996524482439463678185176173116376924357536484768658469260346677398084627598075414591953562226759980369185689946361592048712744360245879757349725533901320804728935722518302227531640417506918706116444227622978554002087518771038485366000704396956997570177050919211023059543472259395812068258821584579778904741474887382661128305019259192663850716060334429216493364822612770698728954726366989376560430887514561204306430768516998207814391519724160162804052699012142090605712705140725206598328619268531068856673005406803390507956912616071125217109361386603151138507866257724120654001492292513971615694354454783427367380733298463107651486840763398681900879675424958198917772027895517108587425454838029467702168379479346950060875962554024831450907610338900758007321376470822384472715699518152062624979739073151649775423658369403089860093914993287181493160769945714695365338990050454417460254181387713575713194067603826355154127807307877234272969357698786084541393502904569306578088677686136116665897124132693332358566421689088305271222778257970315548395660426588673782937674156355663106423710271952728156546103178413281985097247635879930105281964516491245598612351726813460548705913161819567579011976852669825759635197859919827741037359986370361769653471717269607362135002988247685368347393226783895389025858512531712918820877749401698647683789425111077232360200949318884802465343033261117215813306668482671030302097887499626055490455143991127213352700152672881650828472158248229136920766954552882412631458311491212414590638526000441826773472146243895772848380040178991161037539544513898090805166520213007593671599410341424239646807064994620703301851734481193281803994085263355762684456862170894178554713976683344276218558752416636272633731043391064404902413915736838198941907959273898506518035972993475532538350522630862031484677167930137755116706267407968381859852359895468860149477400129796781768172361213052438041068220883680031122165974613590681131407254597567683266508681578701361826152361624075417383957203971538613291949497896070048390643657844005586043445035549544481440770985634578986772970118373079350006286442980946961749621115612618706764259096365733938460976494988070531145770308149168083329817763925961051115749342181441692441569909015508887151550482512048209941480112619978118816749050503425028793056841052786693924259086157432373364747089915395955622304795899131141651850253748395289662594379916084879342318447335764022603548673,
   1510814883439833128822418115305535264503614753900842042224020484119170667847636538156708593792386513464825037194698486609890187546476145162615954542834663267036382718676093802698542232050635513646982597935241355002902757371780814037033477250406226518603861702671968754618746059832379313382255837112279377669302975683784869555219287844315635277722274682811144874168515234530203070268952451959364771829345819239090098355092117320942165717262623115214871931525522512038109700863697038360159471569812355074859545185931383579538567510647229291637904662016075913661696829812461185491954368261380604264698983672112353927412936199310979019351307861677975651640368684136860663203424429601672146340013857475278097486873313552402699332742350618334849222216382637308619056870693015084980287104870927460693229239706623757796772717280141766358046644707007696731944872264127253376925614626752847640347967415039659770895932054548916723008745735699008633750585364997535209332864177194387204529184787732353729110335728574484203507719933327362535198548474239977211375995080748301541752398452825946662497143622418530206234111867927326977628106916320464897201618607622821192744256141599991495704023976795843003169312707763399372777569517724378127304500769632640362483119829576918154539422146857501885861768653465266722069250939075412121146493518044769353765907476888907982623068302380343981045415242597409924258454232422353773259920590875439106224293327241639603845743309026631683510502389367561386143886026928437223847546022908758009074312611539730040107331766320237484425200262568497307885796081167839515781283357307004650342500201919661956583215577686899713779882864146892260472509312933230594021389363741289308511111513986170986099778327579504521886581163721171595077375614681644234087296207214608808566752624377479721027105213740066679566252912578536013468599341776705624095177893001248044300514335915199189918689806338891703743268101839619401345646686467893720919698881888158358223328287325037631870291202747322162570840290777461496088612975280281918937168720534352252045138182176506094511890785080939460266759374214027510707513055633448064521074391722701923119340377677259759274752999477877784025048643370035383059677039941290032432504551352954592652757182342438085695468315139228702362192335133930220992616195712691305063298341187773336823645986409844895675931566293835569956129112748253452526618558199151160949513374792899600496187889582539777035100511102517247632002401217269302170371288033272195207046454953242490035373428057954503718946260858858918032845751991490154179919643978321122319333683586123419209191220230048207661454816197352708868386277695896316559304337447738112155336860170728935252822864157971357546504658293093282058703882339547946749630219265720649368910717388232375901223973969344671456476358836701651908428493087864316768839805444340830505019037359741569937670080282415801647616034706106421208474269559105912786468320635245095425357512698165775538544068687661420116569463338837199192391592291983443728895757600793627413765449110334829555705389085712037712679513466890046582682687798988456067656958097275457322105012907854365309228640793104850277160962520055713862212913364350427671765462668957103087915858445200830183582220489167341123007233389472126202118125326312316849197731109039366046341156075000289717776703040565042484527599724946314206953714716988707890048065238730753,
   2384809482315461550445385822223074445646031760083340001543255106439100576598963753795783485329041415720782862459549236381110845040130232396510396230489262676534287785111565886297883746187314126566908380640153178367594868468184028544819449606931961113418359875580031642409682596887507000196476172931141412752281693016806827212604940204204055026682564292383003161975168725035824746327190077711569712261184952767052522808955248407656906512610405412657723878732457410234351387921716112586560504513549187675102054662078734623512022068459886179548082520174879842165670857516296846357080858841970147253008992158530964935833058574118483116901760056432327868676682795936023562867184895933881412805321482952403097636479242052755335087072707661472045140260550940039666049840876091721009652871966181743461256259240231120184842413851022507775150662970392982897864040437178931634542728240705555521010832511606265165476113411765177392457834596326619400938779789451794803272506768616542624848831231694629164301035853421571041778145927023810702726891337237814166844959596039688383305359426528440472342341904538409255057304897790720630539034133068472329054261405451340099395269067444056555296055933343650033071970668134101756361466415567189513090567763813311016988536367396622585918066785199721607680154798121315906251933236654164178369741088367028768733511711264433924945510571439141063896466337577462085532045986297926871999327404091726324911862982926203678559901402187939536419087711128409294269653165387684556754285032369187057959082575279219712517086395926530860478404825561982993041057695899511361000509307345468513743478285033145388537506825276966226202996295864112667133822078894834568044554110521373499872389393317022332550708732706581087291809794817150054015215479239688181360201654637821013372646294176413429324712142778174523585751227761730712719467499914169246636564784090982252492591129553395117074718050671297626255994385805801832901726841461243352733406455059952596083771101107898846773836108462416787946047372444556290745167535964959266841715994892231574051886770998228225643521709781022464217234522839039557787005174272402898855462347569598495001852473289626237494368887432477337862549427217075662918448952907081945558730665189024331070140826106996713226352741812144652133540373718601964116459393499070344676602195775808627530071705087010114133866482159446405323051007070922825974048020576081551232786863144614563571680807789891675896752318260605319626164539176667143182835072336829921001195493299021890017805906137810117384878869197045429278638127009439366407790711406104919784338131874639265764062285433383794946724822517752483069157622456455125175401198946933521050593734359893779130068384982848544519826962602733028550173106984329936504254021053714821167130061463636677755606268000438425947255546935175346207812634804327328275553625201942279598902250552801916974857394590190611419355618122589883173957578196374368993977026081919480490466518351330619239298006403493750366459050705264773728506694469739354694027992879578513816644692511589584542326803495395764681072187582314448753729371036938596773584696730153422163792058656541246321868923164522145161533269262091021516403012294356439322166507258529051015390485153278616739349094094510495884433962427241356066211495743823309899790138600555070772767243859405415999760667147418117126050787967110813321217,
   20475364614932629569067233187145831532353542058794981236531308858471229334663729056872478226995041373252830429604794124773797944007386261346589989988969615359636963421925777090375421959978553199519589782935828295467115119455937500525097700079121840566380966474752683465595751213905028391717001168469764201294351183431404264309882918233976191989260568699730064529281868163126256574558308123441938442142941185323438732220759167485952192888925912897274911319468452848497456251648358838757465945587204637843999974796052292430977966143174894787450436483396420521083622192051028627730344658308323900081930094477221238371233055130822811868371842619075602540159305981752314213622152685045766350360951415966336500294655956042541083083401457781161083995656551968730917527600878388297383165023868893396297198338188231079734230910568656920183559908543789847253606216726401651030331336015462189116866777568108716156555584302504431157046519551687732846134433347782963436101214592843968779221417559498418530400887117777208491057742969412037481562128213953037435363057386569672778298788970566466824341406279843955298448732981790249228307985426073083711478061069030212955715304232089586809017389281809477256754971071197303145704871838023321502708128551933094570472160874505662193044757808570897843946323518576714406456895471342259490852804545296555533110030622365242390054609958426080435145753129373512493657141091448883724194939300172677707575954305371208285419567500180390790999595016540411319335503076495993579289197373694770741534387855763358411043472364720399760562470246022357284097964652827430995255310489954023314032707012293645291997942261800867176484983928341749585596333437302574693485490813795337741426350093937813076232100536036936222729256604561576377123429623601032913577055611179279087490322517573642961361816385676328663652051756103041873458538732559541215748642387182936128669323252995209867983999961618594879862077424993839369372174481763911268779035780009204125016389969458439691823476326862267026321936791367527706106314489502741309107068350563818689436846359814103632205997450136752314493192155343218701339539167935296718127204262225962297319382395723659027034476347442687749163924711362297779606192036118078987302907047514736693826164333571485890765438768453422338321502145676343246797783436731906425001747404645046057396869539074279337082763276384664047550826573977352121716127248189090418713026434306101782126016862454064459044945973176786248879243290096006037186674336405841055693489084982750468112033882092133546143469482745812142736333106463882438491260036525024116680053869973734529760563843350673453907404285889513384621784158899544297033657624972181033603812272961930306786518198129860507696057783917964686590849191839686753282367047076196254720672820607999243929269726743593357728962295758006391509807186062694963464657545181509960336602620199111526081599885235734667021846671365925819456062805991623094239955619600737086331918224910936624494707374396851087308013287096521168469218801410621591345195894194862496839280273180709277981414038018917321606060748083500045042286262031059576940153782531056815270140986030176959802985102883565014755541063336131661084033675756665086471179335427992615795593466045149886292760026717579091849193807364143884589074261661761423345184242841017268059188271899315548781917017923883149860110618872078217483405691455489,
   85921816767249186576039343873088187570591990795955506029373965220392055348615709133777275690182717356617187644324869273767914111841295274490731091940469614473280074842564880358732871278953905411156962902928772934067421503691545448580120488661791421537408338730412250693535721726861402825535983285980131278322130898293304730652488892692160355792356544692681801296396840672146132015868023552571109511014122325505711376255499159199723600474129261711530234000140173445167470879568994182887195041979347502703666843274963319478423118677309017333260852181999284116723121870004071657974640656420542547425469224515608799973784295792606518020522402345328334679076672742876508899263121944040017279718270678836168518838524474372570608007205061291122538472803787947556817007500343488185334112752036522178766931601752850120396381847568015656711213360607507825051292994233029694825692887167841643757686896489843015208613073727028986327562502470698253801867257996972474832005762314278158867158818287795491932279179763832471452520551263086764818999269208694030873854462559754411466499424613381481575871256177285951313766685016379616650902783000818365038377989673053320263791428754652007305151985685750042619077024367857959314907057029160160237169358346946647130223615036140584615811675190758868779856002762763969240620315834838189083138529223879195462812036701589402360941808230710796459156688438205149964494969636621076718535307116322690400175254743562474002669744261641278459376435705024477270178071335189940373656923592496243391497598586062054758865748384112864843422274846628685215678569496845408683307561053732230721836305733186542965190108701060364919075915306902136284139724521984228165794308197075323992045749784441593731313683349553449459236504712369393049411244294923489990193269992358209427700351234296430433824184236396174316931503339824449496883330969072371637922328135794500635109178157062543413664192813929480137555805624974651624548416987651524434717290734866746118860425661163301826498998446710468176134068532665755143261407788928357950583512810657172472056956034041792732054639534657429521170976550403506831087378884128862622732544447006792656173478045710059947900847755710337372564794031026804452730266284029388637107128392386521189947023459794142180238208109279372064174370728703808361836081482361385969200621038031274244094171665927753283034959305571199284183815896966959512862799660469022704735876203278037272887834148065247250276385196539740695657295622443877343873293606330289445899404169730760752118524680243670595789300507783153706090196962463790535019879069365119901056094472463274507764891788743771705296827968804984362187297474129626119685438842026204955867490358105792800926960158011915708866423550831570099992284272060618886288802439501345971594255409637359893041960455652713597157563128108050555925444534772027945228695504253186128984433564913681671798288636252114997342399806221265366610356312859419830760112747372076058694654811224817404969602727909186496030945313006079539745174969469239741078773401283897142533379779298432708199495024232499668065482262494881518523615049878275193238103998026754793859599938084962204783339338672292719751568404133125267600860480721960114710425539452006602720056841746093428886154925136029783319866347488241785505234995937709644049125411929982390710997936650119534862856574022738112853260841445934905428035124213344897025,
   175967880759801693843338677224818496949889983303219976438887757725836191180826128738877784386224240055878457648446216097218454833398181738160819883818070365395982615918171600752046359416778228540646580412937488222959930959933152607274138731094536320034091871863878586724930368666874948091779853103002427436175685286924303275531822699678627842691965069078166161538621955631861176070923726304851448372133256435626791684379027253649266865968164608566436282991335674601094466725738398790089151508494088028641846406108267688567989479871761538107664962650148349697536716193505027885542798605998997850196086612707390693404422323597716592842847702467134049280268462847426830156320406448522632009572127439170404340513817488596389439666868386796464998202139477625141446171027062983744148088799206678573925605282671044191321498412500729922527667262856794112533013353963621944021046112520586068698091804753221487390888194362217745207254643028722360530453690941208383257928691352429818994600756007382626324898416725978552003812051171690285228309228535068651195244372745736644628020362988820665822547464178558656289044054552778281969553383654262322573495512888774828468352170885345952326449095808337393941034406727909494247514480972622654006574993689615593231172376422911117730929380202033417726123284489328594098372938951977074553664340283505331928388071745511575130765621229839980129502467486057228841724357436285429591194356880609730870585531986062774169738033240312232765911390942338936187546696180099224062522729687753158307370471139584208940943368324553428331650176727057873125273674981317754199423730745424758382271313854227687506714163187197205658694104193879524579043021726120997333877707700616935526950495136712313920133282533997901982897814663926387511891979904631276424634639676399941581849913802210501044972479626253247885596244893634234633539887028114295858192376547971396524647813046665040782734518523004752553868938979729608759401001405412320552393189185605277891283059135063643277972870545288589260426488507605824590046357305477646683213419162078077393101044942324694516693466555197020496536564476352746899064062530963954647404506242751486736646134890935873906784028763920650845924210357442806069900877722268981477546131215272434021417635667632186341030406961538822885752643777588688764066667074966280954284765883889941021971950683348225107708324727557190446132979591584560513426329837483817575889080983992686615232336735009974398549237558114098832796824414620456257634732531436751459797692973952954570275858309436854462987084509454272236033780819898080890906265564145135704450014547499326372509057535720526574887228753366610684862281031494711126405848113903092097673714491482204242161274340489451805575967826285968091675301076988513970683788471775889607098211556792081129332707788094556784861373297772172562377967182779846003389608164190608632663502424298485849872909114757085576533076585153796528218917065542613749625703361561838925849803753073122491486725699249495527323555215115158978528910857763647031919911519288897063955421104343163385896460829303122380560635409776401384416188839186574976857213999261479039837597104386604184633961851927415059534479343960148392246226438076708936093844195825929158125434404525881327816196983454457937145751139343580867274869120940021340807309137915332928862022313442096882257808890241359022074014572222673098045365322020168778385409,
   360382219796053393631426768146641279504510560435393307771360308609209702560598146609967249087864462259188876081046989572498288559901709631863075768534709918221732831980631989764986764348438650090889161557402897865998411668078818664171337158605181233024200452125518903643447229438222859169888198304605677169636207529602172899923430091256085347906916050289167294126283500236389956035055202460238330929282669093092162489757658971775242773332448901233136068726489280742616086055739475341302336383531279325025569584925625721583784869648060677765112782492356546134920416297205807779786901244779324113799214573333737282097329728500177245423900920213695332710012577674373942654185087978166132368242769852401678999308630583927428889695630063381768718213960574267652512584323379251783556466038032307922070558443795686790059872407925421602452315558302662965488398049081372498969444098894517708407838425600527922728373431451970708290341007616046798156014243102380230805199568237043292492990191295127586562692292078280908134903534857205177086157755696065563575327386652212518901557668796907676751701277563638032271564002578785804563481970647380485635620065757888758092621407107037262156450253746179393073286359621094058496131420237463165861942981144961219162293718285289693707991783503383511213120688456942616273170369313247840187154949476108248736413748764174284276579613332408889780187640567988082587254858265354894107235038140312332156900457912857220120918220380302194752072780274691351676659717959196525566663535839324716698482648734748435351928255866318474176483897761301662069171121601926867447195306583011878208834947706474283700408275184648350027575408063976646882327181521463050558799183172072191668694817312797290676128146692203157430471933575628972601046341186840619976348865517411655596573183422655838245617320764014641221127100224731300531976885606080017083829258264542697405603281155037598394987846718340079243711845978038551381914059442795326479615344826745751391593862632030312465730396735203031504657701407925670233861320855888455718515089723204949264839319109533716314097071746325073623215288792101346302632423818200483120797355810644292476360306946887894716933889895629217547326076667527779407461594104747559454880383254180882096316095716070913435726002246200798137781357774214770463346871608107161081438438261847328951370449219416714313953723040839478332962627240961999055552389045339304132210803102465184813238327699529648963178333796869178084277943330294939774776197680209970558088120433709944890398939743531577125117221215033035488224058708176414702218378705855448198880064631337520039591034101360592253481439487307527501385913460356079343692859195625093900746693700846012267625497324925930340871577939402995388051922860097797584701856134115162869821388507956976819283823144394599671913831444223354268344342046308438106719191216486204522523274839628973382254163317415884194500151843856806332556209803025691679922630271374425413804210458717634441560045507532666972368010877856722303233873570604161063738113001431872635020350960575089865205901381151339075451931758618747280707420654271060537883959659542069194747811779349298755096955157690953440676948495497090631505898987726821736913300116796599772729641937192622063418715153733993627377417854713230565481993043525977099814541512643053047112595460393484476842964832074358634409734200775179268850913786273856902563629057,
   738062786142317329681802290321511553423259752776017874818664865515441234059866475451043751777431037170297597124403985418510140102259911406673874407233925548585781878011125308726360213205839532727627388194475814178835978890860525049603753002219369524146855213003791482215928414632165939381013074568536130990289272578834522255798062712830077049030755871732043098802259509308337969482971699677733892911068255515646779135724155289962217118798384702262142905660539030928776863192692530817464823183920164791900418255428914086846420442927598138671006420838751250269332599981264203453726914594488164344884562606228833391539856616025992957059766879948728695201494839145404896986397719497383505398702366984662553047056073755791869328112302176602472956890423333526569762218378271683120778635734095583918310091929064027651278751245834485514526028590935497188161327620068502072135060910985339321106070363954563208452066424341635570840409934216190972239912814534225938702117723178456841384372343465896799993714596170886712830983510770954472456359504720224060104647738483708907188535072727947644695850211397799509595481670055987784002205513778644589802261459120580768312554423293364338522313390914672015419938534981867148473374847855257486738589524447731280951413567551631354061308364177968721314154225186059359139694680603265730349437522592209940649243694855804581573463321048144607751975430659323696678484141726229686971526096001946477295160455512135513080939235403894371369987612824319195960388994899015505191361229758758427506958814101989261729993945505248736064389173338412800191542437094862004000530389446938286041143056800642793511854914291958059269817952358971037405239894275099367205144304150995971993547870772186366698309145850857263823639921428228495718634856653169185365900825900807920124328145209007043173439359499015590529296223774590153221681283331352149684983038502271973348577677984145425820008503253265585419707645355920342700246270770306945032061252979400660958601554107214459026778641877512737095395495852491959415541957272017293261017765750460739472436148938331974117658643161417400813666498934138633026879410555542012285390323616578030152156651268453260509246952876533130224387032854493490088013160976916711442127811680890872214730301267741563822984888707297599126371884721680829912624120979835854527663622692071359755069801650710557797233521237728515257490192005444779465990624954434727432902644082022201184563225729408025034457770115000966212203346842282531552369592699745915215720061594061937147240594803917179688208901315507206475538923466638714397949040893554205616856343741459285124207222219125287690599276915028034721939248758845508305780240270209930094140192955213970575289339339567637304353563269301184789494067130761532604762780075607885725974148180135971705961050309921432848464705615297795569126958695266520608543877872804471825121159003040647385398576686347313676844916997058249261021864000617457956553535933173684387832494189452481755548081343183144846774783364293164710980461356756161669921505183557152801797655196017904215544928401879910759885265162340780976058382670184874112537995539148506589196413895017179510832682825569328415724915835295247138862953177940816110648140005732336408674992211081196069097664580332234338488055609688591723872812175614368738150909348793816014645669515929690630250439179137059091535330299657354994272737436990665165493585840129,
   1511552586019465891167855730842845560438102355869096723457229438918403507831749242347920988651574196860965448224668588228672337831478865464795437332300334007325037082233770766231858267866377273004564578699457080069426217037988283572994937307000524009797045796357833165791600365163961337539768983157270793809422571963697174169886367215210628344197352841476606558210579224887720923005639951981082990329354219155920391765432040064448053176586590823508075290102430409221123127594527427462608114512197203319876211929162538736416409747375892317275777102502640762904510410142893077434536840212157458259792722729737286566283630896379120589640212001063163472546051975599749860136303246837833446754684482561624830842349333069834531543472152837253768385575090593774404074566561432014707288532775006008249169087846287622372835308462984121743459617270241142036278167171198071994239409936981737997584947166459203055415189452159025877883168749505099522685589801873351657580112741727345364662822225836164740607522584597962850043587655486991150483168483456764371802730357900149288131363414115435555161648946983854502196203294805072907244858565016644778106680066759531057688299376638540452846760458914402565265602668549832524929936787092091023293305080656677387524117635760274065199505475777537798725827448856083985354142087152597098893264029340376574214944432332482299120552483147176208398562394556371691265205419938095467402931415620789991408382111070838494872065944241553861455552022968284400604056921672325485987930661942542659966534832983445136385921801105142322081007799055519160393746112454622903730477252045778737213779995847114453538193264794460810276386319589364403010310370056138791196668160178478667747216640882601054483737498980409975923640039131591310832869234317300763877561820359763067186058810887312514928013854254113305537559047052273776510566988518665975514107571234822872972676612504949986477567178597008827138832379613073485816394603496620091125727514512557381966749721387780513178458672559855086285261711093719072766130754305605961128379608594993366729539813792407746089229566918882366349424136754348069289558516735765830650757594347246710878583122450748649769983763896487759171968444734189396387135236754890739578723809546495408121137536349153140850293536052938192288822782689002008071908211847052941615269030643253821503674507046174427692044448171852642550064376920508719391334475903068723151287136578226644142255670709662101849534527781410924128719555005492194933590527252010667950956734744832932992084427113373177603549562751982957928392791046197776421143147654251599227713201800450175672754888315111942752245436721022118171447411423978536564299210524708286987256680940269753188305481344302405206221920760310341053448945618016565282302319085801544275829721315087722967635886214534777105453163946309117098908235878172984447697547002647952274227210292139975667246631774707864172118302351916092608214659077987871843311121238707551304772476052930471337148306349938293696132287980839638501709803270754891342612908795591874094816836404316800170373213883279013771902661048328289224136560137157032528587695206492099313291194898685932310543356671518761486270380881412932115521811760975429720864271655451040237494028160242373498254135192797806755622775037683050165494291788618007789289534411759910529001493220943489434938390073356432100021267659856898688304824160684677535807951102543873,
   20485362351562179099854041143496062150696940916793665813440705268993033765319185630160434696764689815234808203947323765571282604212463024146513107634412200125048063961768887094867640755331337124012605402133963429903481452076458007071426850687951212788649149124561160686815769783527880661296728762211907304027932799617784994645654354335783967986662756789670182216018083798284049272660007994789069941074202429784231543982840793118133658915303261653495078248480633349735008025369122562412961091353610838791245155407819041651039881678248560192640756365695748856195222564590244388151269080413064257010379363205911055619734255416841287695957496413590414147570651711767008154928269593044223278123685945412277009081061052651927845067866553422606679115272817714602622467287814762056242025000593286479580028093732271592622284443813900556853304676807925547940787961213236170026949773477705872811130736646819525919415481626304723706821562031955642557477286636767117317084099098380868760116261377787298136214792320120623608718795648416122361375364952039634671068387640213111294524274019413392443361190211829561130711616461087874066372803732907516349800378854323488359874543806831327674171615865445126062473864591566536066343517083619078001190625583582080418502254017894452050882135226185496134712036973546321688095041314354063508560357465444076406390154502739709316096338494192961306068933418561616505362052423855869422892422838834607835390202901806536212738642447856098850254081287175962747078921072625523708921478259185040387118763276339312676160197631445877894866058235993458446352931224399680315475769569863762149309065304639375801676492838972654728485742093901637080133400963464184635147726735260351993731121006366008413461550208683477669453446926292469669408831675222853137392082785491330751551560281272384851008065723097810082443911898479366086871384736456183699614390960109357087046278858548473518543798831566802915346282901147467827691667464884107675015251020301095466609785346568498553381535134975649469999985933347856502854320773864089291865208113421070738275027129188617426781424436220203194158877446780362171409287452757381949280068179202006094488670339409485607119341753167212606774252781153786170879989664306507248462612491791775870026327729035187812511563756867011891203080542661286272444689807661933626433380915577995959672333068898262349751139076356130038423610044416687345053930940318285823502004051538983416881190282571899874165213216738328782262507742989697644385071980581112144924876851041772315889229895372697626898991957072494237139704238496096618371474214190884040960709349338612359292720362969625511587736320086490960719789733310707891692442984197966132300114702231646182076471659420396142170817310608647973012729785568126084204078523454271711647879684883548521830414598616357717485547789908252429292100792845052245973066177008127037900262568924550272005264490234229494723453530534301889923124617207893990514001790322333187049590067323110109339972867523339289082726661753856346383634684729664761466681454427080751334325714124423544465042638453057404007946488481269700557074561033383508888754290608876544136474253246948423710457262554136221535182658470788594082087169004909050874167604846982330702724521009147831950594841824436667760255391540003725534176514207153728051531073839804789271733747377216358158765189124482383254513185592344630375023627993089,
   41933546736263732695528342373074617698474231893828316914052324322732121888241907493746957057962006696545667826461970167892816420200711489106835086666740090205815576394190805862636330632095195375967053943415531043841082570750326782964912553893968507371296460474501214560377539454873500260614609076278449401507052509511740176429627239386107206949866958289639795188965939431597806831695149526513526381441019341116833612092033630696557539331360118806631382755364203068025105331822303014424731277902018825985749286713201622233753808147299018630431186499459631728002634132540850755421567412618761771331186448748634030329513354816149883613735810146704908136319493162117097607953287936987134654003647856738944173958467180579001883224069645982483166743453577775164997605958897224455114828721164734840659966161645685847945911853495600877129930712969679954182793121040391413614522757137351322670489157254382571420675224918287642092643639735584614160196877072297550907140677085661912299299088330466761687986346835515344541696745156432589393488841485089679302182883815030849345204050205095488505731569511021401559693418992189754703440997752446172979248418373103025560932346156828959718214683427929964335033350679342467763149098926723293349957620317150122049850198670837720511767491066190168332584202970518574640618942203657093865806107872376260508434143256350707653011588238960913882535117246526285573068629576657244994355217174286849083111590237562348290863150913903270368068920031270463272415118462266628704386492203812221385841264025947880884051588240570165484389490645896003130787410388889424057968524335985249292839299897995290308570940268334547664368609502687001688895605779427883609171236731704779533527688108919760928994051619489955553119411789321005857700659287776235282651650476783837389380661615462079145616210959118904185131123029819576259425373756160799490808312154540153010713028450576933526281196228080637808515410972396472138132294803735340783174226051339193713911126038713048175200148297449547595795912203933378719521936460644493861413545175446337089675389494540289531467797748448044617506371626416324806050197780292643025104746332056493373927917184085938649446365057555133668801577090825438291634591590878912506207081474950790616040296068021811935452355258420328465393999316103224661075052003347095576379813681105128924617728893163378969472483876341978143441359258421866674473434484796253122606146282691967144822555771359344806911466110655541450748078846375549639892055890424048309450192544609235004015027436470204477754430333267344663233687059944692748438802269863007149233884423085316274342565433362342761319237838561319052912043048322991766631749785373588415950931602104292837896591568375480951736956659027638285976270599969838824493806110640704396952200075584345167679916493766432068178881550376740900002330988239154068303004077155863326353842063115597887370666742715597197696230924315111486719040777847444977899997611609683204173810410411983456440989839599005304462707915364905755440660909305118319855361267083094209777182658375812210459592627699827244893752396656292543901440919778977192173894454123828241862384370879064609426434891408771751952346741990354586871255379409141599002609446698129202494651485379787891206283270960341753217263297539979013019571951114071485878691660578419093674294000905779655223639192136828026254245212809438188160075050388555777,
   85879883240508388950341072446439000858591055522358408407378922914448026420528983932557428219022581948120806536027589183163455240897006882881115631812959671876104509712936504105566074037741015919112486051081817769724247916955006852853921505551224644789558592523493734028797985845036098274016175550836417577365533816183535273827284085049588987188171112738954469928250843052826618886746820009378402392733608874516055855512853348507750838566100629550954081312392887805752654923834899608103545458957027202521343100094537363468095776958936262369079554681540306968721088138893554014852309226886097937920621938359699647470055313432389022092103955496511413008863686318255646776430590501205990637208783434806893053339310568093106622537111440819736245823699466666479775160489197979017216674414501533150473466147196140190074216940495550579847572120893183026634000292767275002802722691911449004034435140929441568004163894056633568541969103472740554078533590055445750630645491402807185180315670206609014314345098872435303615460813715014088932775209783101142353271125364851130392311981239661575243144477190402987951927711369761356322194938755469716968062021589504640862002762621711889534296580419041708094507998311377491879437932065605913885846472673632797272764025376445398386275414834997438217559355984887844885808052408473547725970302377868698486637728730314706569887221750292327806334289710239459027253919504926101480142681082153084390969013567025048047314569729314626021065518449475162872511970179048537819289471739357244933768644056986711635272283209593557366834594470988039172430029553435777607166227476625798607236274318982041627402031885770263610663735779809932199335826638504754740799408813353072490080890796471914229865147611046163288451130021062539060776553924251811677474951749877345506887089912565623866807728074107678284254100549844940678217964576900641279789611259141820070540866323745489996340951536975630580521008693342701922081961989264839621276725202296186516951304795878690291888496788049268017247061411188129133755049534522248630961261317097381002685286082373614333295215308001960021129535404974270322008584926086434574330809054954774790591415569740940323382882085166103735269868306792599053355955027675273451120961901215148385136441125283086540270393381569434027630388169977680142513380539134928209551932908399974136356962989607354966056641895646218845056988370325138178997403506215507457972735531912505137091554817008521506840279231768400914759538552899592464721027209913578022454155356576721711116386792955505621481659803466646579491653015092436758920923348006283038339704625043266985379096994983705665568563515484153411216274271405752551839386105539979564290467381420966363414368361879283736449576433790445694493797223112985404527557925907419932290863725898322567721875918986842695200458444541804415333528031287991406581216630776896319683712768447808019455506005234582352180904904775378211375631049538600256638559765441672546117100960795939591945941995262907704593408860335231158985685071034212350502552109111107855926525615180529320063427517317218067392037555868788474995211065606098737438452576192719740767510917699749035356211167750392038098739312768119797766718269476102657867400039166144534587843702947480083323815186582030174625901271517749292719989561322112162067303909041838015863759794396956902109070829099706384242187152701866712900896628567237986305,
   175882000856085820839455706583304824894269112108586044936492820826181342807301208214016050400928075175518961007977094493091757315687795831400467858525017639201340060671405942727684579633922610019568989843852652865342787916850705095058065232602282658919194883253229566665004121811147488470865113145921048151308506571955388757745580859730237555826579202910231203438810529179988770154993756698484136238881778687653694595611947773249924220204154673586797089732591092396082450747782115363357631977944597759833420214102968503447062106519694471705098763763804689741750355875166956259730615781993086994314264640111563074327012097651115090631505385159543324002539726750552143650576603871668521722573518884268633380501293327377866180733518950521474849689535442919598364092366717527884930914570490826172612279765501022334077530376018515048351097131390906726794443318680391215366635620559265063572071618696027108308785309266694408530968421318867644693233984503928238763403018745908648412075927153561721373111257259090168019437939277979913833617847152883035796234872978630730087682564528897343314784218101469251499269779920575090081670902911559071674912737089961388567000907047595591550939812578010276016256956124328204655370147216217476253801307644096678061870360899517483895730315319366019125712713180373800991892504221561427351094745688418408346177695298137965663122320744247469676459744799504843476572952097211742019795196194612091374241735251232834621104278670956580078248483753067491750750478946412471078559239086421154132219950259757947675327973507231001343002756344277290256859868838860233225415659432948303250153629892133601033924358211555217544053005973319624064132897510005713373456261772363482130636892806024117019392546575917780461219618206780089500239555559982866855484377697870851152296009680069826569324213574236509752966349845966938667172443810274349385321253349169562184477131586847832919748123599829330137478555306968553499757765403997040668835731706096140886470363522376604958922208835153890641546832223241533774264808368869058675212812321133088369698666672496623689353377595941495629785501720712138348711880460486471790184198769617209457791692446448843591532798145072302787994134072951041933329279958130556513849741101125676091004710876708325935081677612493795985064216780651189864252639184070797220145835532907470817835382667680177626414299733516735283451010136910672279843996309109359475765973412394427001862606703932629196387267159177554557290184134362131399901254754693271730607727994504713836646924968784826404201941101958238402725359907555916422392530830126913842171102531699335956318845807701634399924317204203862192714482757614163407385109647008085106703240636259261456565132071298999680031433954916679387675618291377241178458518334402420308941587862479046103743764102803385566438023043399800253715178752743560042532869313494194350453614833786893632656783244501896080086427867700632845047698612071988789740377349827663959599106736821875573786353696247192327418070311378523829071272300223613912560506444734700568391176839975149745197603587618401460032834497127342613482526082897692548236323082357402560255376914923948305245163781861289032897032577985688702271331660327616216630726190773962192821135862142064915042352762857290228736167041332022091105605948696884276138127370503280006148184294482824252794786682478458917821196447261894210767289303853004094441473,
   360206337753284236438940897183581015001279329482555616231920136396622480562389965245607049424463341800666363555739647364286536348191169336710525969203016507577208095942020051011031543055175833120652389558127970876284708538273291689995943271829941576625705955743463223727802786351238461507077407006562822901754200359256091547058335939367204520193126800753324226118210548647935440627303405339180219967840616713971567698395334839072687503224264609238387410036734934995020040664336787622850034740801895684668159967279592574105532691754203337848928609506891017377170262405451505412189372193966848170077607687774203144493338464828034201846344941651906391607387301075181223481253114160694124366404066678917835045099210073487132718768951194790006541074301199061562688826296087253261416017201525240181257099105539732565080113572991997790392778895857390909174945202073599512860728867209334422659162712989666322637398236128614978200292795771670733824067679515271672306548666827048883308860936767925468637375719341503779435760292196797618366481983144654747256787420680707526793109048884373856336814126963751511207502632655142494557731372051460559646318877136097055410217853158520813069163428374411341828305453213267198755806975256606496815247476372730058646867093556819699496950663449626247208709914578894412908564717442884570260211539528541910966299797034312555842592338248552145402059379063447162557952949089126924869753084815522612283054505296601436038201534247852495217689501614033925688202114610558518800925710404042594676462653934322299538965688812344484392708730975358637871127148616168640411638812088060197001910247137390585814387376579690073906306869394134576276208800845447041894980361060867801289320931963097963258957663027805906004430589679789020443957814508946671520576167027142697286396450573133432593740262387931742443331523655930919802006209277622711518101881574319203577403157388107339199562196918351379946189272286570709481111333843503043533595824234260608513929697098773254896146499095991315721978272716063724086885630464652538554660386618522655638004253200000482037908214532854178124259180310127641644531217004522056268882040859353295682278974305823101244654423840736326994111228521405027323278064744502776540115183850692556461299277914536183479390618147196067269199713004557946376883705906795565996504574421482827705764543355649633868131623867771510755814566945980602623317055006704111115287003809304844263296425802629554261994057810204978050644843885632531118870949655710882037728427226378020166697972512584382442415842679294813699894051859383047338635584240047470028487335467572074212582596816549229865503626358627172333191914132995188321140898918472347835927265914262657173804460730208972609537413897384264420985102747491827195308543336172472423099982086010985367057706910406602620291384913735054770469837260168224194135564412165159142349657654308954592279544740246435353033218303641310475319230761791870708396413704719547794154097530022029748177278648230849718377818659390869372416237375907077837218574813622242535096215362927818633585910559677791509348528825680690104351722262527356062468552859575490634783985798870748320011878679615969327545640435568221986317609328112986375851879801775772405819755709829426830722247704923923653008711669640379932365175221088541904986923005772688436160126995979250996419002219339330553714338425240030945972323139582964737329072129,
   737702579718726136702310693042074891456237882968158073439178094767166728632297270725257856483698698890508444058902751000445573695508077573952499008496882202576880180091276767118813395223804666868369318849377685624701101181847488402364743461296336070677778940701372068129865235509846642770762417570932644430381041616958792228897802300835875945513543343349665507812120968271266223387430661288477874539751290086106459043140531379924320091159858924668238731108343523185784424188454633813984901668298775575521427965156379270901571497274671922828318461592467855021929592716831138156338117217085870797742069608323034804019637097847318195184640582332628021396819215344530120654297724442771959231731637175055638079814187642052118809107368841910984094352226473266050292323197801632579855001432897655999830349540271472857710104781823761738380246296082541714629518586086919208089476016042789018866231156843908881261698646318141819721525536986824053677473614531214795987626844969914879018365809747458122057071249301334612439546149937673591189911792372548492719323017662855682203847612620543266020600206987057265852213669896806157353296970118032058342407525178922069300246916448121277293961957864573375063417250101847434443213536703396421568795651098085128570212796277923396604696522761819229639861278052448706919026423336385976003627615212138984182195701600640920678488297663565498907731687793635770232588300961855231396771661223535753716404782431609270218600958398467120803861624621130888387677000029124205453137334896015079386067787521519595306668798987398541169554354133697315283784207640981818038980936903204208482506361110324790729382291138050613949236502885221457923823899964195485056624097660833790861323751072891781023477972581434444205733797341813895539630115552548858797572538035094761938066774293262160445245577795916279071339826934370467253154266564815123734420125258784894389654917029801465630526785104530990838364706294848533469006933414012615007098082782654004188167740476371886855241754187122750404625846930508163257567792638865692358317261537271696343029896033177178160407154580407720988934901451264370767108352721710169355553262656372902601493885440001043240348525842820189771096775703290523476737585224683715025459451330555312723174369734225944786203797855368232682721022492540706994184687618124110830970737419219764173562752953106033321402360433488587731139054619505227676648930917326859678981064283372121701772651117963830568877910402364010852715949330164743694503525056853509638529426840119156992581702566978355767148018827814534767264782038247064678016738082555325709626314449898658264995168797389861801198044842143076506538311996817195342765460711206408941527192834437303607042512536379423821054636299534671960780800063780650766114645711719869232554310035023029544401124191988020297548154603216232648922614835254193525505052123606696900639637417755919258703437238033953286579601508413356315610148882945199270890900351057309880221497455789739434557957122957736439591533334931168873883016814032047140559231097100037234814356312702346760647443556624890653696286960006946885764734299880353997207896015786386681806909671792707518622422310382029504781457554545567962302336539546392599397937053091918714822271864105310711241495803646691568343634254744255403881532347827692070702997020700129344674940239572434544348968220189219797539984747239752457062451979002442396789511292929,
   4881707338646954336693449367283456084084063415861785610218393656907950095546193974280951335934433863494634305946233722890970489359332219170045554167878154032229974895938838641898761922331475004515806158533818941758758989786804318995910950799289915676393494504349730480239692162180210506269546450685978590072199948408095551308746466544260967509379911194700961783014653997306410444208072101173154889275568702990694562586215171021406513567130188633451522602109198319704698852100595084339351435976641416040646974614194470924391849410948028771865581603302223477386187026719055647538527578087409803616078540983795653217346799046490462782376665459095914181253370462345449594544838004974973674698354357767355444104943031319123116357803096480654094238139982953124480918206302798174651804689906442469285260307773549036269187973099426852901440767477010212550294272877281386952199361318841710390205283174171515886848633593135282207009876801939728296214087857242986980344471411634796455145471619641276788660765051962130068473825391057158636563035922194604368761549876120679343252813740703778226974551179808990534294994673884266479079300511527325189899407906773793418031905557658462492912545114956381314293329827623541929188897443647271685777346911417246698208261546246894041280278384073402259320796577013833427151241245278771003517714740691469643605230560828871426514958544702207571623674890646517731813691216624656579790555076124431883368920492758594806192328410898460323774653746762873202452431567135826245833451993189462863176478539845484152258301422903721818857995251932080705971871246515720821361485099942197087900476996509124224730927104092665949415201720880775248098034020714356759276075280412085741830549191290607366155195495860557846793790794251429552318005151909212689187553098287164921699922824483251347444104156133120718004312416289111147978690794862511662846927806881772236672480640932001553024663491177091935890957926904234651987553017928226032180614414768451978841177567976364239823965582488269155345098287941573340819552732244139082962191996432604023434068966639692020237440489101122055900861754957811519273422080694261806167667883260694302010606850668317363896073927557344540069369482722874577088467838547634752314086870092369837845540622394773560524462302294752842878509089130643128491494676827376814839975641693763981700462677150922474457330133393004001705148522845868290926640795436395700774391514424275106923525542930472651839540132770379838323935840236939091558275512566141315884079058101196032407190611327379642129654921688185890807211413185948732704938746492137363144625633257825285670217978610849903405926278379453129822273140623710284521459063300880148505365189303276434969048852694631112295136723823386376812399574104013811586959635282091902602835189627144615751724687476479251805588619886543536142557852883905820268462678383788833714590035718783602392900590959582454305191694517416798023560692430358025130422483111310163440994406257608958507686154760708947318479586374198163600518514898722598499774649548566916246092468361605854750022522785622456512648607187886688778734414900558049983043227645751212622968778651191986234379060841014545297006704323472965473460938173644884242806422350589460569787341772673777884871457182508777163999953605449644049601102725855819078149626330094729444291984692780684223628997629618815940970858512215537021353985,
   85879903705870390315702565014241172252757669532813279172859009256491096951560388816731673643209643172944425352592049314570960503591742985158156775256331151097319384935663894020803591851959511194657436470504557452139200221849888835115740413385085376542459414608645426886636524957922540829809502927863290164416148263756538828127188894229185039952056027615008233521040319102697670399174728020852527855351113099021856964807668368341109730297164903436163027239230848000479590823369797881999057954671174519074712613941885870932526394514885386964451326128334323603330873628576914436746968749695954041387407711638213969539562805121667349782715537794649743534724006362943858907717526283477173153412730420102888570028159481183082264842741126990135731916041275273866410490861792912038959723374711434817227619340892584049666572653233905482511049852803250033002790902147298054280816221628769487971599763697599345371401656069149592119581945990193428928579991719461850921614451126008071503175831624198293535730535597010051226354432572272521153634024402864289026927438081158733564104415066043166059533283949694381445629530365708507534312454210200516014245287335412008734262779151462082702625502663451445114687202597638993485886774409162243166803081744482312536398697427379196373632960680663931579761420442216495862208761147048352385787371495533134387001017338349016115255773031157179511104042620261135974954076618997385550895634307611728201531237354139947741497887592085438781524087361336383357685480134589148938883048772858618923899043000314031623439198038179561599491135206348116858422111443841382214298474867303306294202097341519863251960333534549804650591412849550771283470209008368715211185189582980876446922713543619672474205274673911157286634910581017446561642376394839801933717474260424788627063330139370431457820479569467295425084292717880778746455682663304137667584931391171634039667329017746178163952873893832349616942874074492039886152770080931019400897321092479406809671992459415695256023324042768635006432554572554276489667542342336397094848814259796474019488784278342045636743274017402026280904497876121087205635482793261420884086667762912569839809704720887718797065328940985826309240717680555616214249194324242055809592446709481639534285446327817017473455707712004917453033558087869783355196395394517021687892564287979887039443406889086891913360014461485298461257603528061784342111401163846869788920871979903442486859390448834425715197831558222118585061020167645262583425751475129326232709729101597032335617570041911891852419858100293992031422725997789537597379934337424303505599173618378699982751115354088690022096739157792599556033472363993931284768287317843450001980109001512556274429858757941005565248338332872659522088665771136243888069390168931175463979872931660772479855020686821899189486799368633703528662355065556868512185401580107943026639193232552094363409392061409726317928465428000977001955525778669400114216072471764185407578365618059697372587316770242896700105514136545917770120243254698094980117398134018788930158069711732359963876718397628510771357718964944980882344136670899091275830320638280825625367465858820052630875283691905028481162746270956831910222171426396475649486299743401112652664720557840009686707103274173422391153043026727084016053570486340356132047354563048836648145992405059175172894178494082884988049383394454779580889440680053366065153,
   175882042810097919102168954121899538589835591374597797730647851194592273916002266739281103961129032825956587843281083521962007624490842673414599760049959560450387884969744059364113061554375587261720504311038921096600352521961481040932215515538152779451477096828695117167989665545172847026061963874586394948712033870263498365379785118453065203428471124146352863774625456928394077481825981489256387352222575899620094344318389364736935357656324631780878993425905010049420068029939887740658487752949733626153600465977398501983723599856395805061812454097445166840315090822350832340026769958911845412751737870743724137006177504783901826670636589617881642943800374897642218566360180395759365461370807514820919495308397812274013325236928861128644751009697000513169556642091113506035924280310287556890866461034497547016974007098779953516470061421636065382006244212971166195260909240653184295849918938058175785472761266858718142309273210219440061952348403795588483328773002990925147665784574986228263792214264771469421902923886687609282920865070300231324660589693285166804638862588539432043928327588525819628642318975511924160929040086379711563674890908886573372369547036384330803758054757371843085325855467539401784686796941298661952377156599519881870832580562699685247294834385720155875442329516949419162764211132248775050090638759105706523381826994861099170531140825288585456803299680663395859464190259917057970106385474952280474051095796972956151023699280432385972971038452239342142145323554129997316146487144007037753550837779735537337269512481393288431361994581619289788929143008104285785651321953459095837759840492764877833049948077748142626461523459996289153007073115930504231200047340496807533058942222528189748793920963171579375219938579535374612353996639300581458473866132175315784938458693927801982823281015835744477959146290646397735742596418109766193476459917275549790990805429387066211379797291142469419905201581813394925204371174976732310658031340579816599238624065871579895756216759107552683674254858183644858802018481103740107744272028464948920425802802565437585241951496588969857279557328148588208007092397811090424077642154507939593641365758023702446795468178109745626179969335094072116255484038346798254891038054539858088460987315832046417291570769846006272934774689729429056271364854951290882740263782109804259559620861234240722370715436034311114333285434169278205854626724655011875677236683815061986416000401245572945832274096327684105608731857831808282685158809294361776428360799981860701864696660977465481346764502205343779057412027367873691356532926328458765943161565656423947968865880891917910587151781349262539628161707011781084838967653241309002922652573163290164865873386325857507558734746712439647498712550947752041084040323018281365471835668233570427887898815274004817771412427715190482098480781299992954860281128102398722854348630682971636216535156928398289995935469838201828988149687848503609277969893152610774180357451977210483453977334153547645588747975158164199960309161260900624587486149809309121274811058457827900583327900397011703362560453396395160582317204229801505713371030651350233239890115572637695780016539381023389692615857033477217314193989020825711547526179890667408550277169851616426642346729390337038093063677643154969232721754231149783172643501776499586849106955369433654871008761002826861298848637838255598202455084680930538953902081,
   360206423675101013680977628142622988920788608721329392852459322379113658256121619205621039269142181104872853353711124377239143691349499349275825630111229824801297151861006945649384496060686894049259854702336694690105083449124745217424544422430911147950011488564925923005179498231010033104811772565662548400774185819975286659034056443309424502251092012696287173001928276066569180580577023540864243230771309905116610284494042444430722543938072942816844454357305293612791251853864143159364646116474283685393847284906443536887535818906236906133684270585835381270795244458403789399540064887835520644177481791214206962934233937563038715692271845264259533597123845783519899763529924757330125680758870313692134503275375186102759346200878619895144533212614412037538334492485296281540110340768651613666661900275310876524411158528256023129994421016623469091644037528104883625725796470709154209752076325692556751655067254035215469960794560781094354202452367361170343177564033167018636157705981729728532433293388906738291578971661113748459920294090746653272393107605964811652161515278915510736875939195624316429699840353126717146668927435965912900348483401353342428689379584459244009917083381306612828675290261041806445230219762172224038383674580616804874621620564247468784685956873733405414138611612010553940814604808016654046866072053084064650074131485446075592181023710344931068778106618596815764210012951920378326526427236646782243913219781646640772380652184591129051134765690963730099424122255530575845380016983765845800609723939733451274036301476943166668979542231162449209779609414755219768025587131390244606210524636565850732347441479804392253422984632353004761397762039297111942662598385638343147892874446328298158353847534566007276969286159931059959789176553276885169881417378245697445069252016568679327314140258805862868131092995212547363520366308666341606238971729365581124211306410990955706865815338229548678553218497030912249853887653899752849422296230726222746581436709405147436172076129982398848475469368519928692470525827747742501183079898663923619569645152381521924227979544246573061507648595148714051190233410490927872535087309095566445301062728054001959312287711878954454380936048893307044844904955265723458887324482482139249808700672313916193164784522271474071899104675794505374991144273007455457919033075561407829243744305273702062939104522312003188312872192290546685191359795101999901192432502218186608741622000396669073022166306425998372965666324038143506506171636098081623953594735690298566455194858841856030573767271511663623597604160250995949733859337198641267595115436088513073105343760004572252957559545186751075072641024764086233621475343314918898764250568206010493900658769091784043930191433519035620778065269054974149275348946114572685329549703358630105409489605951390985629572266833178330526962431858434040672068418716102548508602369214093598654311731964813928762575204800192963190200250934811543218033996727905431986799449918197258584522220041089830475418166252420342217012766010081815509631036591579378241946896380916800969378503389489369459822024841674073899914538987096855174154999424633214600056236213746104629488134257035403182715292470707083769930353270336940655686047234028160197888594637099524000886197649687478092545453698164455053050152942649033284287528906127821254086617103845719662753043767294958283201162143676787488335130436583427271628425217,
   737702755686606855543282451593282094307797195665614977064755643922948900698759361613989115820781804715526877428706143721630373394750368207759287133363716664503333237831650543691257070691258664203531764622660532819963017071145645739399413806553633924193660742708536790578133065993458830910257072267090367473262591181115434084232623674441146332829797338523302383474749975015929397520189610340172696475423922028180362974293611042865343127873766324319260730198728906579020799234895147825756327145772643982418049453544630717663089406900242156771137416609349906663871386449358784387795359872559130911509011808250414732550490086707511388870087898591705838407181836718709153817326071521562758757798741085251677243442305247036007269247913468107786080056031853649992833896972763453203323149948220124896259765134727716290899969915389132987402425387058358684347120903528215472554888987504381129209453420061361478763579156212274664085166518712843127184629580683728178315516181156630283632840051483907658473277072730920114583761508888306819088929555594064202444258555816970582633120346554334767521838417799861264635376854178774085614545422838912586899764906145064487196890106496753781257037676653733142795012727689134640765647274172831600536053262383318577366952549616622495045909955507832271240403138219568111078561153409216456486090503090700762063007831059688395445264469795368917358266290639656905592884302663739319449275124561325371997916190946190899613168233429365601428527898444042945068240159900612870067471313299570579301845804093394049051364939644301118946668377878604123682462881241033771152662286925858121541694371833461182056515279046401917497726531317811122795684652930277697924371879081889355613758274531248901039385469413072456363536643637894524178907844918616280165257523198547219692551474115946009410258982770332361927147573069183060327710570723019270345503107778685268583891099952521005208330757613792702913583647248835593088973719822840091541054136375859049398016812413031705133472381117459520794975358196923079851582003969524677877680282595978717379632519558744864812602136577322675579722201502922686910844579569476815526082850200503162740177455605961431819071439971250621389132472330322983965666744657484885320584183730394135178141102546571070084497289208176270686265300593428017896914474090909494838180196743834100349980916496824958775750304287315772926661019113182661211866770860325786857623604063204480161707571701690778652349240970356256218578855849006508517727935269449539088175777732241276439954889960079853187398134287690430633616577420156809153663397488696799133788791201096800210379537971407771722162839299879220811325297038333419685330542281581144330638126249635814206343612584244849904943608576978875385266278884199563800485120795846479056917593935310098080184506063631106297838307489246049580682831234788793333441719792340258148574926761468327418653221060392029738552198606904841161802129087228008734774342976785565128827551341262878785139899194569522495978788908987016220082771766141575320718528891812676413178363025404685608348035783737017891110935079048253667969370538128544886390603624788895058635912886427093424682775690843006946248579232163248735836626140846793399254509608812406089015308641229567990416817822704515073370708484254840890078324030689533566216800276962779082020919185426480084140096857635988491285945071631084089689699762995915810011669858305,
   1510815243646170840132167101127431628169634767917861886875516458663469471676794673190387145996964948796398454614842757625671722802191698230537754038294746611773766918109868717036551898934250520689413813483166832860970458791194918807786037472224575207300397415844344645986596534664805517860434160702653722757278860504370354832396985792762936527418170686156057560573009048536722126826587368332620455125352877116550595740897355129829360677349258915987172617700707836276541955076770319469550279632218171150372040469777405217915524671085385684158867521525065402955473157908408614424644356100319870112921282328660385657630147029602789977434274813984927407435350716210155199909074252552331302315569415926407597971995756817896190381763720521624797433415919941305533495045772084710009878245082515651558496529418291304470918255230933889227803305625369776477881422323243040755124854043037959387218586744037512378276251908453360769214560334578368902741123487499006261624733836243604662630987098899880410877225434203339929442766924096309381157390315154511739567240981067539618243550176666158923572662914111514594827910725221390044689424310672431183180039649265287266072155225321131775877777245391973724269352465124540695952885297489465662390105049162426208143726041964994299620661875655320264556228842375901254617429923404960758104576964184231007066148772826179823150347266383264189314500547648927936628582324324558408909775007877925563026796769983967702258533487666006677413670600604297761895188772794446050671108539102272429660382133057846030353140999376646099798409961521382334262609436706600767838086357839965320886537959893597247635490840284997632622061264714244789804656240769318336711178909896493477961004230072754883849106681004872128847618057010359778539493978172130760926630834908171480875974595055049378756150826313773833720196742614798260174491518651620674756745705378818523304826883790425639279015954223951286045114655767304318587295488042426690602671023607824731731542939834753614302910019685709314970541465525668063841497032265769513560316466523093579200612468097915281731936317082846106553731929516127037911403665126525882861743273439029284795931879742045602805424747222483047075546593688065746529678032018921948394804580510777318805106283449015260142649956899840958349932745971144336001577483711611615670344018267986221324700779255565518274989200829762991052740659790885254775121084462133339532408188300417502799205309576556666103900038301059627488570733497247726159079584668664594282974647461458061076007085903998697582203008986103836200442272205307644248903494080113554058415414437269731388730601920322148343884480690498978276862536853581983923099803023028860681323182012940568733590709092074742368176544429418191197715788356800853234508953096637439435302834382171622230629510265158023536626530702796071342350612009683955314220573131518539042923926596799288080332164406452719381418306793252418134242249695317438512516978790459320309325459191239244727171576928545611102199665458781055846122346512199088171846321588497551322335985125859200316812568233758900119154403654530581889987622981418496353561493156878434005155451694234156933443101891255394962617628111134247050156371029543837119192724288595266442070907699186258973345190103680247345503622880807763557608977050055448800471447966378452823876592072594618140507019191346745802706499698947201953958897778197745777122113379895297,
   85879883230510657090411642901344678556293420635355304441293634510792456873987962103098162964705697129239005256087519981398023060661748642234493718649085374961576744761490384480973661899501792547156114509938711220769075894247320807348477894431931246986572751001342283638947031308901205091817358706059298205871137920152318419643826860003393394205453303699163874625928900586373372399890579606720391807998037666606056765006714173659672003757631713627524797015498039902229576604421598082970343643872099626282243832841595796989905873071515255260007846975004951718000725615531765617358901781702664629214106078934922079904859123500174867352313867024155748885341565091407887809885678091032402547274723558279747247393685840953281110138913908550976910892028473842624608702436007010287753276049994509119941724963395311679962205968539107125745268922060410424057828061396475345925895175462780756373268926984707705640262028564325567284641747285775101446816158287282252753861733724093388603629033694045532601386444070773232832601907042591714590846426893465537969923132966911422918379313143265318149006167384565680509519837294368419528013049957806188813866281210666769504243601051233073292405520055024524495808475014092640967993892123459810563913305496466481231996140191692423675607847000931867341929986444446072113923305018717622484541719201531942097471531306773575398129102730728983400941729177119691596063070765947816961994387328986918458000568423906902886375670999594823294863442765693374921703664751847953169588095523755434585680106053977108957601686722838433083008463851353104133893945046359984895933618425001615504011627127951827833645043596743955494194000244931596192839321484373103467017754214954797856043853415970842032445539219239402028761991156633905526884885912438654733747653513506233548364104988363803975473998018992468314761114202764449147737814145234125109129100919987185479631181368392832094954408828661090124338694690568772426358665562505326249989545013432916532771225850581128575910225544923925521473151697736368672763967622010079443170696951657721144910302366685488349837322032075108991046269766276072372128811421347712650508678568310578149630351444287347395010471638183225731694007185976162338024816785561512429606297953165701358066337673479647500305418416703339416921176018622143607935972933848089784215884740725207452082796233597915001883760840039018936193247951753622508785365251761923004702288414526220929696366090877802163023902032120535169807977602578351619209957346830679240055339667376871795666614917371323929753844832774925644839614104522306463263326497900200703003104353679849107799046323078798786231113239939264455149097401770273351111709399856493116376133912873062532522799654467589146929578900701337244172749410182492838790003154690986137861985198450197922777520885452511579564769466462425931035886441116173853224714634590682324377694357264905303422083341192573840058178470016628204360565115064179065286606826132573723462810644168991646323907638555007511466677108512435006452940847845710548437064853406538759338816142435921973705403636352692296561051379745419250345405606382256776771854494217019706496648227832465331319958276894765017330439507311953508824422858801188256542224851874596077115742854996236540020476224307677113942943631595356465367275302721340791508354978411366366275830884396292185400303848429746979007177931668340215440127620058544340993,
   175882000876561185452005854448955879558284593080704744544078839349303966960623560918390991991504334069703275976983716213629930831431855315975423239857180764448569869124838156885340409176388560672735166997376767710844333008311712303519178967439538116901618762934595558420846922786056913388679014650148150819920769682071800489412978804189588137731016774232955093656453901356038545551058998318589181202148858272846479264254281971611724872309062789194013478489382325779515732518547320251490771404520239870265167563768723648942774172349578933561605391313386729441175958824925195191437719393228304925931617189469316389402597558260542901076847191556014095478591636888311726341719658011977811543073547982376434263569434068469621995699687740260901353389157057532541347223786897018256839994534059672349543904042595581629258091231146082749473720987805295779292665844642394062621078080598290576131262237130190288906951699950695325729526697072151974960840593349840748080220262740149283364146211943610237875635664670825254311851126513478411553626000957573326602192455706923049160366112843788875674359254978854915569626890817980656456492320364543621514517318880763549506796187060235774620985141001860805979199156922240173131082843096186257991840734551853604313225659315269057852235959922293776804169644675678635969065467619830388526414424239058109143229383713177957123207239862392705733763848266245040171940207753604034008221623059748297967496228570230163221993188415597664938757185457699703604212281807863748607002512445466891789747602932552291944233703069070741181617233285465874741292483421372747324699375059465653542016466487600753776246278124034307754396158232356412147526571040687487739791276679820955254553792496827003023041260429612336182525465469643985445449255653504179412688540277639755282396245035273033681569589478468369205871552723930001320915120794750909552986669430365566096632456680858476076862497863714895641372300230085846637024822974197785068666816023278146247307284686180026606548256218942022231227166932589403148019477427314930436727603256165964202515635903132763891903302924442111979447510163384181636118811313355619896955548146518526766799584538642403030770995350623241602153686616485473661095897149214902536940563644781001214137073272536858788752900356406972814207523502584338720964420569336038008693726705606720473348438609647625189764310999387913971753365055555999366351916641181994131530361181208363058727959794298022338708637809639990604682838566859841236489812764224201496763585745957074521965666258728484721514841372279564325356210013058368845355261219226883591920825581893242230151400694447553074864335653309472171829997899297842365281117227335379908243127436862174377959040469331317900339387285306621740738573262864056165200500504613599442218501963688864631090831108078743308091902701242010900553259680091429298070410306018910905348352059035296576647709515240971908429193675964041475113891722862920629888312056447579900150162861466923159734208406515503538104113332323334296843063581304770861679289485417153858342276448574262835096724187962830143832902393860289935725137112458622298379702662905459367818796176368513062860760013797565604348886594021454431486177551987594621088299361392187695159495454486754193999570187077644812514687224776962090780876160467176863296714532128034845959183394294353989975465738340149363857480160705617968923312367485872112666625,
   360206337795217783165438832721248643313241842296902813903649184923960166558623163242128917646290763198700597275803899854392654206530830199308669999977989300705850580720640223695443653800509274188141809896547828026084413158054398491229933169264899403909619319474743959546203795589782988724194281035626533365605759626385952842477257308366816133218053451200647363445583694688363084471084858022578310625627881215431543772575097055831005902109866947242692181187489077120882706671356074651506010012585523561722234191048383288265650433068546090579569974535792937883926018787611799952660664379706383598478101270137303804289238341257979184799772329397281299340675978349910177024147541576913852328191192142847428560681191995131638999997017508708326720279598389793532462242587833520834295233179435844520398596569741951529752768748338767616284172133319408129040128150777766795688887264030615280606811557199325202963084854487985327795449131775479878788940242495769899842125632565295537080835678420798453635528220473364036627287413438989777228982700270543120587502803665517727117107525109375944282415530492708555292121546247353482511540190362075309574630076220099296515138308235160951398038280237890250855883204500851238517071850986870909968405726384004727954927313356750199538451784939867355281883296193714109563423046245893943634974749255922830524852687155912589913834277439856983302766160630529438736333885698239157291594904684594854639995941190227629787919230183549283085941390577341725275646070560591330427219566175445027763857263984343720661604063357749583129315103409400463574750552587035381297413079507401630142032075998203515196094694650679364451484891407016449096627643292826332183860448462759314383607126387755905681756625607675217846219590596997227458923788377370919873289010162709249641676936732387254037921241881940473386610679129123565001095167042809505863055404589223248469817053752562233857815822459814299181793831613559963279156085590949036431214552441908889725861275190133680587418416983429697539524848001329663670521303775495803699046374027011210332673695478064810436489176182681703157106027784258721091450724249299448756517060003381284639613100942299516937371822884542523332080870024909680452925585190345973312251045191137742163030298058063889992859040468390663829548058146789766014094560337438428440501308217446150286074210075754103512700056805080185941305359071925481647890879416653083224715636130343567732287726015162057881953062095024700856132277928134112493945647617395463862754095766928944764547753905803998144710685963121710969998982451324524543914916569970774920462373336860123677582924239077121656610939028248794748012872027114165433915746709912501804905051409763982817563373708684213806695149109152472487550927484308947183131483324999521905965795961797624007095732336240431348232927989210193156595500539033880508353910010933433189077185352047172078065367407764435073987862316702990210888188878393604208676916331326846549898223272612965507609401198872005148252736235276319738158004694788426779681357503717783980123528585707944004001958961120499106283195412876416837382302253797216739170352536601659474532094018249877601901306263681258417089989462941121398275270060883007007786811770285628577529865129474015770651336447175794350657166820303960802505075766417815289211915862133603048036226887018828624895037379381447733697176349338932856240819407166946641354688513,
   737702579804605999447458998570307434503541418028389343377592484208050184119059277739420765759729092134496303898465455024496329981680123195938224712126636924615767837038385841766881361294675301375914032219287884373718688632827088664912110629174939144624710244128094150890007816543035083479561247917543812600230111985857876976978097734125064480744698867688551536948400159725096864668898152382245762003342710103674832668789431490887637920660881018158074103277661970515902579058054431317031618146230270514956884781834170346305777810013458603673515220179076872557262495323829005430619883190238891282765803991829398924714437655966460989721704723850931135273821151124920401837362630628845740162913764829606209044846602833158765712569921348025469698841475733683358483288867144063509184818892144265679128814532699268520412430882416200453627510185550772840420984874437626759919993016351369301397309303678213940855622590170558828565471583952392331529541605898830241537769620989718220875885286827106112656797067520704175963661688309185915118973872889914805067504577977138301954171425453375530295878149984507496355122016049687857775280446761834198306238584944423279262633096562769072244828872966991743084520548098629904769273580510195455317082633434006832133584619134809521196780439073739781996809969072514516671807621337441234310080159576373841976542778655185373518842563474227659053480083402138674747071454901582481620240887171432531626735759180856695210254458353875166097409864184704587661856722864565203990951037035241329155657352908043563141428211600154466541045441071259461778891899451124145805710242212169809363361898754724203233510105244031893627644308010133009580614293216128659395794554525591577827258207484955224706177190323328451502557051190608346194559459795065524930155213088524594082206532869393810576427829594958526854517883097654203140255909183393617348189152656733888768300180145449185100584999819361249228692616220200974036937545060481437364875459011580017433993648224833623324997326941720581078834080236867861556102614669985973064394529079025600664761228717125725056311421018749495032293648888865439929331578334844253825995839011806859959486540030850420237712429925007782849425313644571786591021459813726028516536896416005122434165362682788006324895960759135245395812468093789127655226269473340128337390722747942730279277153603646046949683325238582325791946057279035681699686110484443828127163096697632354555905006844062622010714782950502033543235431859104481155477329805203114931911529618817240334531104508640176692942114601915372532115823449949789746645688151335528115033834799291311189868411219936801811181538440754025722697535626584209623321766228010790535336985167366986543839599224317877937019652472966111587092102074786830520245182556009270525892863200069534207280496602513160112184423178498248860559632633622464841111230688898498090374961916864097962212468371744521166947440073399506230362534329274933160152108732970019454185390028979505383805883131203849780917678858810278825625823041317409156112734164504896165239903278791193591622587739642910963205746809253284645014772304037836510547060719925371174089985323367999470056278978739928678468753797651269594817519313389749981666563380877691329678901578109046323348230610495299705287856225758044832171193645942872859534643807415253415573601667071037120672879996013186714097016339342856012899175761357466332190216292353]

/-! ## Scheduler invariant and Julian reconstruction components -/

/-- The scheduler invariant tying the channel PRNs and the allocatedSat
table together. -/
def schedInv (s : schedState) : Prop :=
  (∀ sv : Fin 32, s.alloc sv = -1 ∨ (0 ≤ s.alloc sv ∧ s.alloc sv < 12)) ∧
  (∀ (sv : Fin 32) (i : Fin 12), s.alloc sv = (i : ℤ) → s.prn i = (sv : ℤ) + 1) ∧
  (∀ i : Fin 12, s.prn i ≠ 0 → ∃ sv : Fin 32, s.alloc sv = (i : ℤ))

/-- The successive integer components of julianYMDN, named for the bridge
lemmas relating the Nat computation to the rational/integer embedding. -/
def djP (c : ℕ) : ℕ := (20 * c - 2442) / 7305
def eP (c : ℕ) : ℕ := 365 * djP c + djP c / 4
def fP (c : ℕ) : ℕ := ((c - eP c) * 10000) / 306001
def gP (c : ℕ) : ℕ := (306001 * fP c) / 10000
def ddP (c : ℕ) : ℕ := c - eP c - gP c
def moP (c : ℕ) : ℕ := fP c - 1 - 12 * (fP c / 14)
def yjP (c : ℕ) : ℕ := djP c - 4715 - (7 + moP c) / 10

/-! ## Finite checks, established once by kernel evaluation -/

/-- The two m-sequences have 1023 entries each, all from {-1, 1}. -/
theorem caG_check :
    (caG.1.length == 1023 && caG.2.length == 1023 &&
     caG.1.all (fun x => x == 1 || x == -1) &&
     caG.2.all (fun x => x == 1 || x == -1)) = true := by decide

/-- Every pair of distinct encoded C/A sequences agrees (chips both 1) in
exactly 256 positions: the 2048-adic digit sum of the bitwise and of the
two encodings is 256. -/
theorem caEnc_pair_check :
    ((List.range 32).all fun i => (List.range 32).all fun j =>
      (i == j) || Nat.land (caEncTab.getD i 0) (caEncTab.getD j 0) % 2047 == 256) = true := by
  decide

/-- Every encoded C/A sequence has 2048-adic digit sum 512: 512 one chips. -/
theorem caEnc_balance_check :
    ((List.range 32).all fun p => caEncTab.getD p 0 % 2047 == 512) = true := by decide

/-- The base-2048 encoding of each of the 32 C/A sequences equals the
corresponding table entry. -/
theorem caEnc_check :
    ((List.range 32).all fun p => caEncGo (caNat (p + 1)) 1 0 == caEncTab.getD p 0) = true := by
  decide

set_option maxHeartbeats 16000000 in
/-- The calendar-day enumeration passes. -/
theorem allDatesOkN_true : allDatesOkN = true := by decide

/-! ## Helper lemmas -/

theorem range32_all_extract {f : ℕ → Bool} (h : ((List.range 32).all f) = true) :
    ∀ p, p < 32 → f p = true :=
  fun p hp => List.all_eq_true.mp h p (List.mem_range.mpr hp)

theorem ctrunc_of_nonneg {q : ℚ} (h : 0 ≤ q) : ctrunc q = ⌊q⌋ := by
  simp [ctrunc, not_lt.mpr h]

/-- Claim C1, counterexample: computeChecksum on the source word 0x22C000C0 with
nib = false does not return the spec's expected word 0x22C000FC. -/
theorem computeChecksum_spec_vector_refuted : computeChecksum 0x22C000C0 false ≠ 0x22C000FC := by
  decide

/-- Claim C1 (amended): for the source word 0x22C000C0, whose D29* and D30* bits
are clear, computeChecksum with nib = false returns exactly 0x22C000E4. -/
theorem computeChecksum_fixed_vector :
    0x22C000C0 >>> 30 = 0 ∧ computeChecksum 0x22C000C0 false = 0x22C000E4 := by decide

theorem floor_intCast_add_half (k : ℤ) : ⌊((k : ℚ) + 1 / 2)⌋ = k := by
  rw [add_comm, Int.floor_add_int]
  norm_num

/-- Claim C2: with the receiver clock on the 0.1 s grid, igrx is the 0.1 s tick
count, the reference guard igrx % 300 == 0 fires exactly at multiples of 30
seconds of simulated time, and the first-release guard igrx % 100 == 0 fires
exactly at multiples of 10 seconds. -/
theorem maintenance_guard_every_30s (msec : ℕ) (h : msec % 100 = 0) :
    igrx ((msec : ℚ) / 1000) = (msec / 100 : ℕ) ∧
    (maintenanceGuardRef ((msec : ℚ) / 1000) = true ↔ msec % 30000 = 0) ∧
    (maintenanceGuardV1 ((msec : ℚ) / 1000) = true ↔ msec % 10000 = 0) := by
  obtain ⟨k, rfl⟩ : ∃ k, msec = 100 * k := ⟨msec / 100, by omega⟩
  have hsec : ((100 * k : ℕ) : ℚ) / 1000 * 10 + 1 / 2 = ((k : ℤ) : ℚ) + 1 / 2 := by
    push_cast
    ring
  have higrx : igrx (((100 * k : ℕ) : ℚ) / 1000) = (k : ℤ) := by
    rw [igrx, hsec, ctrunc_of_nonneg (by positivity), floor_intCast_add_half]
  refine ⟨?_, ?_, ?_⟩
  · rw [higrx]
    norm_num [Nat.mul_div_cancel_left]
  · rw [maintenanceGuardRef, higrx, beq_iff_eq]
    constructor
    · intro hm
      have : k % 300 = 0 := by exact_mod_cast hm
      omega
    · intro hm
      have : k % 300 = 0 := by omega
      exact_mod_cast this
  · rw [maintenanceGuardV1, higrx, beq_iff_eq]
    constructor
    · intro hm
      have : k % 100 = 0 := by exact_mod_cast hm
      omega
    · intro hm
      have : k % 100 = 0 := by omega
      exact_mod_cast this

/-- Witness for C2 at 30000 ms of simulated time. -/
theorem maintenance_guard_witness :
    igrx (((30000 : ℕ) : ℚ) / 1000) = ((30000 / 100 : ℕ) : ℤ) ∧
    (maintenanceGuardRef (((30000 : ℕ) : ℚ) / 1000) = true ↔ (30000 : ℕ) % 30000 = 0) ∧
    (maintenanceGuardV1 (((30000 : ℕ) : ℚ) / 1000) = true ↔ (30000 : ℕ) % 10000 = 0) := by
  have h := maintenance_guard_every_30s 30000 (by norm_num)
  exact ⟨by exact_mod_cast h.1, h.2.1, h.2.2⟩

theorem incWeekLoopDown_eq (w : ℤ) (s : ℚ) :
    incWeekLoopDown w s =
      if SECONDS_IN_WEEK ≤ s then incWeekLoopDown (w + 1) (s - SECONDS_IN_WEEK) else (w, s) := by
  rw [incWeekLoopDown]
  split_ifs with h <;> rfl

theorem incWeekLoopUp_eq (w : ℤ) (s : ℚ) :
    incWeekLoopUp w s =
      if s < 0 then incWeekLoopUp (w - 1) (s + SECONDS_IN_WEEK) else (w, s) := by
  rw [incWeekLoopUp]
  split_ifs with h <;> rfl

theorem incWeekLoopDown_inv (w : ℤ) (s : ℚ) :
    ((incWeekLoopDown w s).1 : ℚ) * SECONDS_IN_WEEK + (incWeekLoopDown w s).2 =
      (w : ℚ) * SECONDS_IN_WEEK + s := by
  induction w, s using incWeekLoopDown.induct with
  | case1 w s h ih =>
    rw [incWeekLoopDown_eq, if_pos h]
    push_cast at ih ⊢
    linarith
  | case2 w s h =>
    rw [incWeekLoopDown_eq, if_neg h]

theorem incWeekLoopDown_lt (w : ℤ) (s : ℚ) : (incWeekLoopDown w s).2 < SECONDS_IN_WEEK := by
  induction w, s using incWeekLoopDown.induct with
  | case1 w s h ih =>
    rw [incWeekLoopDown_eq, if_pos h]
    exact ih
  | case2 w s h =>
    rw [incWeekLoopDown_eq, if_neg h]
    exact lt_of_not_le h

theorem incWeekLoopUp_inv (w : ℤ) (s : ℚ) :
    ((incWeekLoopUp w s).1 : ℚ) * SECONDS_IN_WEEK + (incWeekLoopUp w s).2 =
      (w : ℚ) * SECONDS_IN_WEEK + s := by
  induction w, s using incWeekLoopUp.induct with
  | case1 w s h ih =>
    rw [incWeekLoopUp_eq, if_pos h]
    push_cast at ih ⊢
    linarith
  | case2 w s h =>
    rw [incWeekLoopUp_eq, if_neg h]

theorem incWeekLoopUp_nonneg (w : ℤ) (s : ℚ) : 0 ≤ (incWeekLoopUp w s).2 := by
  induction w, s using incWeekLoopUp.induct with
  | case1 w s h ih =>
    rw [incWeekLoopUp_eq, if_pos h]
    exact ih
  | case2 w s h =>
    rw [incWeekLoopUp_eq, if_neg h]
    exact not_lt.mp h

theorem incWeekLoopUp_lt (w : ℤ) (s : ℚ) (hs : s < SECONDS_IN_WEEK) :
    (incWeekLoopUp w s).2 < SECONDS_IN_WEEK := by
  induction w, s using incWeekLoopUp.induct with
  | case1 w s h ih =>
    rw [incWeekLoopUp_eq, if_pos h]
    apply ih
    have hW : (0 : ℚ) < SECONDS_IN_WEEK := by norm_num [SECONDS_IN_WEEK]
    linarith
  | case2 w s h =>
    rw [incWeekLoopUp_eq, if_neg h]
    exact hs
theorem cround_dist (q : ℚ) : |(cround q : ℚ) - q| ≤ 1 / 2 := by
  rw [cround]
  split_ifs with h
  · push_cast
    have h1 := Int.floor_le (-q + 1 / 2)
    have h2 := Int.lt_floor_add_one (-q + 1 / 2)
    rw [abs_le]
    constructor <;> linarith
  · push_cast
    have h1 := Int.floor_le (q + 1 / 2)
    have h2 := Int.lt_floor_add_one (q + 1 / 2)
    rw [abs_le]
    constructor <;> linarith

/-- Claim C8: incGpsTime returns a normalized gpstime_t: the seconds field lies
in [0, SECONDS_IN_WEEK), the week/seconds pair represents g0 + dt rounded to
the nearest millisecond, and that rounding moves the value by at most 0.5 ms. -/
theorem incGpsTime_normalized (g0 : gpstime_t) (dt : ℚ) :
    0 ≤ (incGpsTime g0 dt).sec ∧ (incGpsTime g0 dt).sec < SECONDS_IN_WEEK ∧
    ((incGpsTime g0 dt).week : ℚ) * SECONDS_IN_WEEK + (incGpsTime g0 dt).sec =
      (g0.week : ℚ) * SECONDS_IN_WEEK + (cround ((g0.sec + dt) * 1000) : ℚ) / 1000 ∧
    |(cround ((g0.sec + dt) * 1000) : ℚ) / 1000 - (g0.sec + dt)| ≤ 1 / 2000 := by
  refine ⟨?_, ?_, ?_, ?_⟩
  · exact incWeekLoopUp_nonneg _ _
  · exact incWeekLoopUp_lt _ _ (incWeekLoopDown_lt _ _)
  · show ((incWeekLoopUp _ _).1 : ℚ) * SECONDS_IN_WEEK + (incWeekLoopUp _ _).2 = _
    rw [incWeekLoopUp_inv, incWeekLoopDown_inv]
  · have h := cround_dist ((g0.sec + dt) * 1000)
    rw [abs_le] at h ⊢
    constructor <;> [linarith; linarith]

/-- Claim C6: in the ephemeris-block scan of readRinexNavAll, a record starts a
new ephemeris set (ieph incremented, anchor time g0 reset) exactly when its TOC
exceeds the current anchor by more than SECONDS_IN_HOUR = 3600 s; otherwise it
joins the current set at index ieph with the anchor unchanged. -/
theorem rinex_new_set_iff (s : rinexScanState) (g : gpstime_t) (hs : s.halted = false) :
    (((rinexStep s g).1.ieph = s.ieph + 1 ∧ (rinexStep s g).1.g0 = g) ↔
        SECONDS_IN_HOUR < subGpsTime g (if s.g0.week = -1 then g else s.g0)) ∧
    (¬ SECONDS_IN_HOUR < subGpsTime g (if s.g0.week = -1 then g else s.g0) →
        (rinexStep s g).2 = some s.ieph ∧ (rinexStep s g).1.ieph = s.ieph ∧
          (rinexStep s g).1.g0 = (if s.g0.week = -1 then g else s.g0)) ∧
    (SECONDS_IN_HOUR < subGpsTime g (if s.g0.week = -1 then g else s.g0) →
        s.ieph + 1 < EPHEM_ARRAY_SIZE → (rinexStep s g).2 = some (s.ieph + 1)) := by
  rw [rinexStep, if_neg (by simp [hs])]
  by_cases hdt : SECONDS_IN_HOUR < subGpsTime g (if s.g0.week = -1 then g else s.g0)
  · rw [if_pos hdt]
    by_cases hfull : EPHEM_ARRAY_SIZE ≤ s.ieph + 1
    · rw [if_pos hfull]
      exact ⟨⟨fun _ => hdt, fun _ => ⟨rfl, rfl⟩⟩, fun hc => absurd hdt hc,
        fun _ hlt => absurd (lt_of_le_of_lt hfull hlt) (lt_irrefl _)⟩
    · rw [if_neg hfull]
      exact ⟨⟨fun _ => hdt, fun _ => ⟨rfl, rfl⟩⟩, fun hc => absurd hdt hc, fun _ _ => rfl⟩
  · rw [if_neg hdt]
    refine ⟨⟨fun hc => ?_, fun hc => absurd hc hdt⟩, fun _ => ⟨rfl, rfl, rfl⟩, fun hc => absurd hc hdt⟩
    have hx : s.ieph = s.ieph + 1 := hc.1
    omega

/-- Witness for C6 on the initial scan state. -/
theorem rinex_new_set_witness :
    (rinexStep rinexScanInit { week := 100, sec := 0 }).2 = some 0 ∧
    (rinexStep rinexScanInit { week := 100, sec := 0 }).1.ieph = 0 ∧
    (rinexStep rinexScanInit { week := 100, sec := 0 }).1.g0 =
      (if rinexScanInit.g0.week = -1 then { week := 100, sec := 0 } else rinexScanInit.g0) := by
  have h := (rinex_new_set_iff rinexScanInit { week := 100, sec := 0 } rfl).2.1
  apply h
  norm_num [subGpsTime, rinexScanInit, SECONDS_IN_HOUR]

/-- Claim C5: ionosphericDelay returns 0 when the ionospheric correction is
disabled, and the fallback delay F * 5.0e-9 * SPEED_OF_LIGHT with
F = 1 + 16 (0.53 - elevation/pi)^3 when enabled but the parameters are
invalid, for any sine/cosine implementation. -/
theorem ionosphericDelay_disabled_and_fallback :
    (∀ (sinF cosF : ℚ → ℚ) (io : ionoutc_t) (g : gpstime_t) (llh : ℚ × ℚ × ℚ) (azel : ℚ × ℚ),
        io.enable = false → ionosphericDelay sinF cosF io g llh azel = 0) ∧
    (∀ (sinF cosF : ℚ → ℚ) (io : ionoutc_t) (g : gpstime_t) (llh : ℚ × ℚ × ℚ) (azel : ℚ × ℚ),
        io.enable = true → io.vflg = false →
        ionosphericDelay sinF cosF io g llh azel =
          (1 + 16 * (0.53 - azel.2 / cPI) ^ (3 : ℕ)) * 5.0e-9 * SPEED_OF_LIGHT) := by
  constructor
  · intro sinF cosF io g llh azel he
    rw [ionosphericDelay, if_pos he]
  · intro sinF cosF io g llh azel he hv
    rw [ionosphericDelay, if_neg (by simp [he]), if_pos hv]

/-- Witness for C5 at a concrete disabled and a concrete fallback input. -/
theorem ionosphericDelay_witness :
    ionosphericDelay id id
      { enable := false, vflg := false, alpha0 := 0, alpha1 := 0, alpha2 := 0, alpha3 := 0,
        beta0 := 0, beta1 := 0, beta2 := 0, beta3 := 0, A0 := 0, A1 := 0, dtls := 0, tot := 0,
        wnt := 0, dtlsf := 0, dn := 0, wnlsf := 0 }
      { week := 0, sec := 0 } (0, 0, 0) (0, 0) = 0 ∧
    ionosphericDelay id id
      { enable := true, vflg := false, alpha0 := 0, alpha1 := 0, alpha2 := 0, alpha3 := 0,
        beta0 := 0, beta1 := 0, beta2 := 0, beta3 := 0, A0 := 0, A1 := 0, dtls := 0, tot := 0,
        wnt := 0, dtlsf := 0, dn := 0, wnlsf := 0 }
      { week := 0, sec := 0 } (0, 0, 0) (0, 0) =
      (1 + 16 * (0.53 - (0 : ℚ) / cPI) ^ (3 : ℕ)) * 5.0e-9 * SPEED_OF_LIGHT :=
  ⟨ionosphericDelay_disabled_and_fallback.1 id id _ _ _ _ rfl,
   ionosphericDelay_disabled_and_fallback.2 id id _ _ _ _ rfl rfl⟩

/-- Claim C10: codegen leaves the caller's chip array untouched for any PRN
outside [1, 32]; contrapositively, a call that changes the array has its PRN
within [1, 32]. -/
theorem codegen_out_of_range_frame :
    (∀ (ca : List ℤ) (prn : ℤ), (prn < 1 ∨ 32 < prn) → codegen ca prn = ca) ∧
    (∀ (ca : List ℤ) (prn : ℤ), codegen ca prn ≠ ca → 1 ≤ prn ∧ prn ≤ 32) := by
  constructor
  · intro ca prn h
    rw [codegen, if_pos h]
  · intro ca prn h
    by_contra hc
    exact h (by rw [codegen, if_pos (by omega)])

theorem schedInit_inv : schedInv schedInit := by
  refine ⟨fun sv => Or.inl rfl, fun sv i h => ?_, fun i h => absurd rfl h⟩
  exact absurd h (by simp [schedInit])

theorem firstFreeChannel_spec {prn : Fin 12 → ℤ} {i : Fin 12}
    (h : firstFreeChannel prn = some i) : prn i = 0 := by
  have := List.find?_some h
  simpa using this

theorem allocateChannelSv_inv {s : schedState} (hs : schedInv s) (vis : Fin 32 → Bool)
    (sv : Fin 32) : schedInv (allocateChannelSv vis s sv) := by
  obtain ⟨h1, h2, h3⟩ := hs
  rw [allocateChannelSv]
  by_cases hv : vis sv = true
  · rw [if_pos hv]
    by_cases ha : s.alloc sv = -1
    · rw [if_pos ha]
      cases hfind : firstFreeChannel s.prn with
      | none =>
        dsimp only
        exact ⟨h1, h2, h3⟩
      | some i =>
        dsimp only
        have hfree : s.prn i = 0 := firstFreeChannel_spec hfind
        refine ⟨fun sv2 => ?_, fun sv2 j hj => ?_, fun j hj => ?_⟩
        · dsimp only
          by_cases hsv : sv2 = sv
          · subst hsv
            rw [Function.update_same]
            right
            constructor
            · exact_mod_cast Nat.zero_le _
            · exact_mod_cast i.isLt
          · rw [Function.update_noteq hsv]
            exact h1 sv2
        · dsimp only at hj ⊢
          by_cases hsv : sv2 = sv
          · subst hsv
            rw [Function.update_same] at hj
            have hij : i = j := by
              apply Fin.ext
              exact_mod_cast hj
            subst hij
            rw [Function.update_same]
          · rw [Function.update_noteq hsv] at hj
            have hjprn := h2 sv2 j hj
            have hji : j ≠ i := by
              intro hji
              subst hji
              rw [hfree] at hjprn
              have : (sv2 : ℤ) + 1 ≠ 0 := by positivity
              exact this hjprn.symm
            rw [Function.update_noteq hji]
            exact hjprn
        · dsimp only at hj ⊢
          by_cases hji : j = i
          · subst hji
            exact ⟨sv, by rw [Function.update_same]⟩
          · rw [Function.update_noteq hji] at hj
            obtain ⟨sv0, hsv0⟩ := h3 j hj
            have hsv0sv : sv0 ≠ sv := by
              intro hh
              subst hh
              rw [ha] at hsv0
              have : (0 : ℤ) ≤ (j : ℤ) := by positivity
              omega
            exact ⟨sv0, by rw [Function.update_noteq hsv0sv]; exact hsv0⟩
    · rw [if_neg ha]
      exact ⟨h1, h2, h3⟩
  · rw [if_neg hv]
    by_cases ha : 0 ≤ s.alloc sv
    · rw [if_pos ha]
      refine ⟨fun sv2 => ?_, fun sv2 j hj => ?_, fun j hj => ?_⟩
      · dsimp only
        by_cases hsv : sv2 = sv
        · subst hsv
          rw [Function.update_same]
          exact Or.inl rfl
        · rw [Function.update_noteq hsv]
          exact h1 sv2
      · dsimp only at hj ⊢
        by_cases hsv : sv2 = sv
        · subst hsv
          rw [Function.update_same] at hj
          have : (0 : ℤ) ≤ (j : ℤ) := by positivity
          omega
        · rw [Function.update_noteq hsv] at hj
          have hjprn := h2 sv2 j hj
          have hne : (j : ℤ) ≠ s.alloc sv := by
            intro hh
            have := h2 sv j (by omega)
            rw [this] at hjprn
            have : sv2 = sv := by
              apply Fin.ext
              omega
            exact hsv this
          simp only [if_neg hne]
          exact hjprn
      · dsimp only at hj ⊢
        have hne : (j : ℤ) ≠ s.alloc sv := by
          intro hh
          rw [if_pos hh] at hj
          exact hj rfl
        rw [if_neg hne] at hj
        obtain ⟨sv0, hsv0⟩ := h3 j hj
        have hsv0sv : sv0 ≠ sv := by
          intro hh
          subst hh
          exact hne hsv0.symm
        exact ⟨sv0, by rw [Function.update_noteq hsv0sv]; exact hsv0⟩
    · rw [if_neg ha]
      exact ⟨h1, h2, h3⟩

theorem allocateChannel_inv {s : schedState} (hs : schedInv s) (vis : Fin 32 → Bool) :
    schedInv (allocateChannel vis s) := by
  rw [allocateChannel]
  generalize List.finRange 32 = l
  induction l generalizing s with
  | nil => exact hs
  | cons a t ih => exact ih (allocateChannelSv_inv hs vis a)

theorem schedRun_inv (calls : List (Fin 32 → Bool)) : schedInv (schedRun calls) := by
  rw [schedRun]
  generalize hinit : schedInit = s0
  have h0 : schedInv s0 := hinit ▸ schedInit_inv
  clear hinit
  induction calls generalizing s0 with
  | nil => exact h0
  | cons a t ih => exact ih _ (allocateChannel_inv h0 a)

/-- Claim C4: every allocateChannel pass from the initial all-clear state, for
any sequence of visibility verdicts, preserves the scheduler table invariant:
a channel PRN is nonzero exactly when some satellite is allocated to it, at
most MAX_CHAN channels are ever used, allocatedSat entries are -1 or a valid
channel index, distinct satellites never share a channel, and
chan[allocatedSat[sv]].prn == sv + 1 for every allocated satellite. -/
theorem allocateChannel_table_invariant (calls : List (Fin 32 → Bool)) :
    (∀ i : Fin 12, (schedRun calls).prn i ≠ 0 ↔
        ∃ sv : Fin 32, (schedRun calls).alloc sv = (i : ℤ)) ∧
    (Finset.univ.filter fun i : Fin 12 => (schedRun calls).prn i ≠ 0).card ≤ 12 ∧
    (∀ sv sv2 : Fin 32, 0 ≤ (schedRun calls).alloc sv →
        (schedRun calls).alloc sv = (schedRun calls).alloc sv2 → sv = sv2) ∧
    (∀ (sv : Fin 32) (i : Fin 12), (schedRun calls).alloc sv = (i : ℤ) →
        (schedRun calls).prn i = (sv : ℤ) + 1) := by
  obtain ⟨h1, h2, h3⟩ := schedRun_inv calls
  refine ⟨fun i => ⟨h3 i, ?_⟩, ?_, fun sv sv2 hnn heq => ?_, h2⟩
  · rintro ⟨sv, hsv⟩ h0
    have := h2 sv i hsv
    rw [this] at h0
    have hpos : (0 : ℤ) < (sv : ℤ) + 1 := by positivity
    omega
  · calc (Finset.univ.filter fun i : Fin 12 => (schedRun calls).prn i ≠ 0).card
        ≤ Finset.univ.card := Finset.card_filter_le _ _
      _ = 12 := by simp
  · rcases h1 sv with hm | ⟨hge, hlt⟩
    · omega
    · set i : Fin 12 := ⟨((schedRun calls).alloc sv).toNat, by omega⟩ with hidef
      have hi : (schedRun calls).alloc sv = (i : ℤ) := by
        rw [hidef]
        simp [Int.toNat_of_nonneg hge]
      have e1 := h2 sv i hi
      have e2 := h2 sv2 i (by rw [← heq]; exact hi)
      rw [e1] at e2
      have hvv : (sv : ℤ) = (sv2 : ℤ) := by omega
      apply Fin.ext
      exact_mod_cast hvv

/-- Witness for C4 after one pass with satellite 0 visible. -/
theorem allocateChannel_table_witness :
    (schedRun [fun _ => true]).prn 0 = ((0 : Fin 32) : ℤ) + 1 :=
  (allocateChannel_table_invariant [fun _ => true]).2.2.2 0 0 (by decide)

theorem length_rotateLeft (l : List ℤ) (n : ℕ) : (l.rotateLeft n).length = l.length := by
  rw [List.rotateLeft]
  split_ifs with h
  · rfl
  · simp only [List.length_append, List.length_drop, List.length_take]
    have : n % l.length < l.length := Nat.mod_lt _ (by omega)
    omega

theorem mem_rotateLeft {l : List ℤ} {n : ℕ} {x : ℤ} (h : x ∈ l.rotateLeft n) : x ∈ l := by
  rw [List.rotateLeft] at h
  split_ifs at h
  · exact h
  · rcases List.mem_append.mp h with h2 | h2
    · exact List.mem_of_mem_drop h2
    · exact List.mem_of_mem_take h2

theorem caG_facts :
    caG.1.length = 1023 ∧ caG.2.length = 1023 ∧
    (∀ x ∈ caG.1, x = 1 ∨ x = -1) ∧ (∀ x ∈ caG.2, x = 1 ∨ x = -1) := by
  have h := caG_check
  simp only [Bool.and_eq_true, List.all_eq_true, beq_iff_eq, Bool.or_eq_true] at h
  exact ⟨h.1.1.1, h.1.1.2, h.1.2, h.2⟩

theorem zipWith_chip_mem :
    ∀ (u v : List ℤ), (∀ a ∈ u, a = 1 ∨ a = -1) → (∀ b ∈ v, b = 1 ∨ b = -1) →
      ∀ x ∈ List.zipWith (fun a b => (1 - a * b) / 2) u v, x = 0 ∨ x = 1
  | [], _, _, _, x, hx => by simp at hx
  | _ :: _, [], _, _, x, hx => by simp at hx
  | a :: u, b :: v, hu, hv, x, hx => by
    rcases List.mem_cons.mp hx with hx | hx
    · rcases hu a (List.mem_cons_self _ _) with ha | ha <;>
        rcases hv b (List.mem_cons_self _ _) with hb | hb <;>
          subst hx <;> rw [ha, hb] <;> norm_num
    · exact zipWith_chip_mem u v (fun c hc => hu c (List.mem_cons_of_mem _ hc))
        (fun c hc => hv c (List.mem_cons_of_mem _ hc)) x hx

theorem caSequence_length (p : ℕ) : (caSequence p).length = 1023 := by
  rw [caSequence, List.length_zipWith, length_rotateLeft, caG_facts.1, caG_facts.2.1]
  simp

theorem caSequence_chips (p : ℕ) : ∀ x ∈ caSequence p, x = 0 ∨ x = 1 := by
  intro x hx
  exact zipWith_chip_mem _ _ caG_facts.2.2.1
    (fun b hb => caG_facts.2.2.2 b (mem_rotateLeft hb)) x hx

theorem caNat_length (p : ℕ) : (caNat p).length = 1023 := by
  rw [caNat, List.length_map, caSequence_length]

theorem caNat_le_one (p : ℕ) : ∀ c ∈ caNat p, c ≤ 1 := by
  intro c hc
  rw [caNat, List.mem_map] at hc
  obtain ⟨y, hy, rfl⟩ := hc
  rcases caSequence_chips p y hy with h | h <;> simp [h]

theorem caEncGo_eq : ∀ (l : List ℕ) (pw acc : ℕ),
    caEncGo l pw acc = acc + pw * Nat.ofDigits 2048 l
  | [], pw, acc => by simp [caEncGo, Nat.ofDigits_nil]
  | c :: t, pw, acc => by
    rw [caEncGo, caEncGo_eq t (2048 * pw) (acc + c * pw), Nat.ofDigits_cons]
    push_cast
    ring

theorem land_add_mul_2048 (a b x y : ℕ) (ha : a < 2048) (hb : b < 2048) :
    (a + 2048 * x) &&& (b + 2048 * y) = (a &&& b) + 2048 * (x &&& y) := by
  have ha11 : a < 2 ^ 11 := by norm_num at ha ⊢; exact ha
  have hb11 : b < 2 ^ 11 := by norm_num at hb ⊢; exact hb
  have hab : a &&& b < 2 ^ 11 := Nat.and_lt_two_pow a hb11
  have e1 : a + 2048 * x = 2 ^ 11 * x + a := by ring_nf
  have e2 : b + 2048 * y = 2 ^ 11 * y + b := by ring_nf
  have e3 : (a &&& b) + 2048 * (x &&& y) = 2 ^ 11 * (x &&& y) + (a &&& b) := by ring_nf
  rw [e1, e2, e3]
  apply Nat.eq_of_testBit_eq
  intro i
  rw [Nat.testBit_land, Nat.testBit_mul_pow_two_add _ ha11,
    Nat.testBit_mul_pow_two_add _ hb11, Nat.testBit_mul_pow_two_add _ hab]
  by_cases hi : i < 11
  · simp [hi, Nat.testBit_land]
  · simp [hi, Nat.testBit_land]

theorem land_ofDigits2048 :
    ∀ (u v : List ℕ), (∀ c ∈ u, c ≤ 1) → (∀ c ∈ v, c ≤ 1) →
      Nat.ofDigits 2048 u &&& Nat.ofDigits 2048 v =
        Nat.ofDigits 2048 (List.zipWith (· * ·) u v)
  | [], v, _, _ => by simp [Nat.ofDigits_nil, Nat.zero_and]
  | _ :: _, [], _, _ => by simp [Nat.ofDigits_nil, Nat.and_zero]
  | c :: t, d :: w, hu, hv => by
    have hc : c ≤ 1 := hu c (List.mem_cons_self _ _)
    have hd : d ≤ 1 := hv d (List.mem_cons_self _ _)
    rw [List.zipWith_cons_cons, Nat.ofDigits_cons, Nat.ofDigits_cons, Nat.ofDigits_cons]
    rw [land_add_mul_2048 _ _ _ _ (by omega) (by omega),
      land_ofDigits2048 t w (fun e he => hu e (List.mem_cons_of_mem _ he))
        (fun e he => hv e (List.mem_cons_of_mem _ he))]
    have hld : c &&& d = c * d := by
      interval_cases c <;> interval_cases d <;> decide
    rw [hld]

theorem ofDigits_2048_mod_2047 (L : List ℕ) (h : L.sum < 2047) :
    Nat.ofDigits 2048 L % 2047 = L.sum := by
  have hm := Nat.ofDigits_modEq 2048 2047 L
  have h1 : (2048 : ℕ) % 2047 = 1 := by norm_num
  rw [h1, Nat.ofDigits_one] at hm
  rw [Nat.ModEq] at hm
  rw [hm, Nat.mod_eq_of_lt h]

theorem sum_le_length_of_le_one : ∀ L : List ℕ, (∀ c ∈ L, c ≤ 1) → L.sum ≤ L.length
  | [], _ => by simp
  | c :: t, h => by
    have hc : c ≤ 1 := h c (List.mem_cons_self _ _)
    have ht := sum_le_length_of_le_one t (fun e he => h e (List.mem_cons_of_mem _ he))
    simp only [List.sum_cons, List.length_cons]
    omega

theorem ofDigits_caNat (p : ℕ) (hp1 : 1 ≤ p) (hp2 : p ≤ 32) :
    Nat.ofDigits 2048 (caNat p) = caEncTab.getD (p - 1) 0 := by
  have h := range32_all_extract caEnc_check (p - 1) (by omega)
  rw [beq_iff_eq] at h
  have hpp : p - 1 + 1 = p := by omega
  rw [hpp, caEncGo_eq] at h
  simpa using h

theorem caNat_sum (p : ℕ) (hp1 : 1 ≤ p) (hp2 : p ≤ 32) : (caNat p).sum = 512 := by
  have hb := range32_all_extract caEnc_balance_check (p - 1) (by omega)
  rw [beq_iff_eq] at hb
  have hsum : (caNat p).sum < 2047 := by
    have := sum_le_length_of_le_one (caNat p) (caNat_le_one p)
    rw [caNat_length] at this
    omega
  rw [← ofDigits_caNat p hp1 hp2, ofDigits_2048_mod_2047 _ hsum] at hb
  exact hb

theorem count_one_eq_sum :
    ∀ u : List ℤ, (∀ x ∈ u, x = 0 ∨ x = 1) → u.count 1 = (u.map Int.toNat).sum
  | [], _ => by simp
  | c :: t, h => by
    have hc := h c (List.mem_cons_self _ _)
    have ht := count_one_eq_sum t (fun e he => h e (List.mem_cons_of_mem _ he))
    rcases hc with hc | hc <;> subst hc <;>
      simp [List.count_cons, ht] <;> omega

theorem count_zero_eq :
    ∀ u : List ℤ, (∀ x ∈ u, x = 0 ∨ x = 1) → u.count 0 = u.length - u.count 1
  | [], _ => by simp
  | c :: t, h => by
    have hc := h c (List.mem_cons_self _ _)
    have ht := count_zero_eq t (fun e he => h e (List.mem_cons_of_mem _ he))
    have hle : t.count 1 ≤ t.length := List.count_le_length _ _
    rcases hc with hc | hc <;> subst hc <;>
      simp [List.count_cons, ht] <;> omega

theorem zip_prod_le_one :
    ∀ u v : List ℕ, (∀ c ∈ u, c ≤ 1) → (∀ c ∈ v, c ≤ 1) →
      ∀ c ∈ List.zipWith (· * ·) u v, c ≤ 1
  | [], _, _, _, c, hc => by simp at hc
  | _ :: _, [], _, _, c, hc => by simp at hc
  | a :: u, b :: v, hu, hv, c, hc => by
    rcases List.mem_cons.mp hc with hc | hc
    · subst hc
      have hua := hu a (List.mem_cons_self _ _)
      have hvb := hv b (List.mem_cons_self _ _)
      calc a * b ≤ 1 * 1 := Nat.mul_le_mul hua hvb
        _ = 1 := by norm_num
    · exact zip_prod_le_one u v (fun e he => hu e (List.mem_cons_of_mem _ he))
        (fun e he => hv e (List.mem_cons_of_mem _ he)) c hc

theorem zip_prod_sum (a b : ℕ) (ha1 : 1 ≤ a) (ha2 : a ≤ 32) (hb1 : 1 ≤ b) (hb2 : b ≤ 32)
    (hab : a ≠ b) : (List.zipWith (· * ·) (caNat a) (caNat b)).sum = 256 := by
  have hp := range32_all_extract caEnc_pair_check (a - 1) (by omega)
  have hq := range32_all_extract (by exact hp) (b - 1) (by omega)
  rw [Bool.or_eq_true, beq_iff_eq, beq_iff_eq] at hq
  rcases hq with hq | hq
  · omega
  · have hland : ∀ x y : ℕ, Nat.land x y = x &&& y := fun _ _ => rfl
    rw [hland, ← ofDigits_caNat a ha1 ha2, ← ofDigits_caNat b hb1 hb2,
      land_ofDigits2048 _ _ (caNat_le_one a) (caNat_le_one b)] at hq
    have hsum : (List.zipWith (· * ·) (caNat a) (caNat b)).sum < 2047 := by
      have h1 := sum_le_length_of_le_one _ (zip_prod_le_one _ _ (caNat_le_one a) (caNat_le_one b))
      have h2 : (List.zipWith (· * ·) (caNat a) (caNat b)).length ≤ 1023 := by
        rw [List.length_zipWith, caNat_length, caNat_length]
        omega
      omega
    rw [ofDigits_2048_mod_2047 _ hsum] at hq
    exact hq

theorem corr_sum_eq :
    ∀ u v : List ℤ, (∀ x ∈ u, x = 0 ∨ x = 1) → (∀ y ∈ v, y = 0 ∨ y = 1) →
      u.length = v.length →
      (List.zipWith (fun x y => (x * 2 - 1) * (y * 2 - 1)) u v).sum =
        4 * (((List.zipWith (· * ·) (u.map Int.toNat) (v.map Int.toNat)).sum : ℕ) : ℤ) -
          2 * (((u.map Int.toNat).sum : ℕ) : ℤ) - 2 * (((v.map Int.toNat).sum : ℕ) : ℤ) +
            (u.length : ℤ)
  | [], [], _, _, _ => by simp
  | [], _ :: _, _, _, hl => by simp at hl
  | _ :: _, [], _, _, hl => by simp at hl
  | x :: u, y :: v, hu, hv, hl => by
    have ih := corr_sum_eq u v (fun e he => hu e (List.mem_cons_of_mem _ he))
      (fun e he => hv e (List.mem_cons_of_mem _ he)) (by simpa using hl)
    rcases hu x (List.mem_cons_self _ _) with rfl | rfl <;>
      rcases hv y (List.mem_cons_self _ _) with rfl | rfl <;>
        simp only [List.map_cons, List.zipWith_cons_cons, List.sum_cons, List.length_cons,
          Int.toNat_zero, Int.toNat_one, ih] <;> push_cast <;> ring

theorem caCorr_eq_neg_one (a b : ℕ) (ha1 : 1 ≤ a) (ha2 : a ≤ 32) (hb1 : 1 ≤ b) (hb2 : b ≤ 32)
    (hab : a ≠ b) : caCorr a b = -1 := by
  have h := corr_sum_eq (caSequence a) (caSequence b) (caSequence_chips a) (caSequence_chips b)
    (by rw [caSequence_length, caSequence_length])
  rw [show (caSequence a).map Int.toNat = caNat a from rfl,
    show (caSequence b).map Int.toNat = caNat b from rfl,
    zip_prod_sum a b ha1 ha2 hb1 hb2 hab, caNat_sum a ha1 ha2, caNat_sum b hb1 hb2,
    caSequence_length] at h
  rw [caCorr, h]
  norm_num

/-- Claim C7: each of the 32 C/A code sequences has length CA_SEQ_LEN = 1023
with chips in {0, 1}, exactly 512 ones and 511 zeros (balance), and the
zero-lag cross-correlation of two distinct sequences over the +-1 chip mapping
equals -1, one of the three admissible Gold values {-65, -1, 63}. -/
theorem caCode_balance_and_crosscorr (a b : ℕ) (ha1 : 1 ≤ a) (ha2 : a ≤ 32) (hb1 : 1 ≤ b)
    (hb2 : b ≤ 32) (hab : a ≠ b) :
    (caSequence a).length = 1023 ∧ (∀ x ∈ caSequence a, x = 0 ∨ x = 1) ∧
    (caSequence a).count 1 = 512 ∧ (caSequence a).count 0 = 511 ∧
    (caCorr a b = -65 ∨ caCorr a b = -1 ∨ caCorr a b = 63) := by
  have hcount : (caSequence a).count 1 = 512 := by
    rw [count_one_eq_sum _ (caSequence_chips a),
      show (caSequence a).map Int.toNat = caNat a from rfl, caNat_sum a ha1 ha2]
  refine ⟨caSequence_length a, caSequence_chips a, hcount, ?_, Or.inr (Or.inl ?_)⟩
  · rw [count_zero_eq _ (caSequence_chips a), hcount, caSequence_length]
  · exact caCorr_eq_neg_one a b ha1 ha2 hb1 hb2 hab

/-- Witness for C7 at PRN pair (1, 2). -/
theorem caCode_witness :
    (caSequence 1).length = 1023 ∧ (∀ x ∈ caSequence 1, x = 0 ∨ x = 1) ∧
    (caSequence 1).count 1 = 512 ∧ (caSequence 1).count 0 = 511 ∧
    (caCorr 1 2 = -65 ∨ caCorr 1 2 = -1 ∨ caCorr 1 2 = 63) :=
  caCode_balance_and_crosscorr 1 2 (by norm_num) (by norm_num) (by norm_num) (by norm_num)
    (by norm_num)

/-- Witness for C10 at PRN 33 with an empty frame. -/
theorem codegen_frame_witness : codegen [] 33 = [] ∧ (1 ≤ (1 : ℤ) ∧ (1 : ℤ) ≤ 32) := by
  refine ⟨codegen_out_of_range_frame.1 [] 33 (Or.inr (by norm_num)),
    codegen_out_of_range_frame.2 [] 1 ?_⟩
  intro h
  have hlen : (codegen ([] : List ℤ) 1).length = 0 := by rw [h]; rfl
  rw [codegen, if_neg (by norm_num)] at hlen
  rw [show (1 : ℤ).toNat = 1 from rfl, caSequence_length] at hlen
  exact absurd hlen (by norm_num)

theorem ctrunc_intCast (k : ℤ) : ctrunc ((k : ℚ)) = k := by
  rw [ctrunc]
  split_ifs with h
  · rw [show -(k : ℚ) = ((-k : ℤ) : ℚ) by push_cast; ring, Int.floor_intCast]
    ring
  · exact Int.floor_intCast k





/-- Claim C3, counterexample: 1980-01-01 01:00:00 is a valid calendar date with
year in 1980..2099, but the roundtrip returns hour -23 instead of 1 (the date
lies before the GPS epoch, so the day count de is negative and the truncations
no longer agree with the floor-based reconstruction). -/
theorem date_roundtrip_pre_epoch_refuted :
    ((gps2date (date2gps { y := 1980, m := 1, d := 1, hh := 1, mm := 0, sec := 0 })).hh =
        (1 : ℤ)) = False := by
  have hde : date2gpsDe { y := 1980, m := 1, d := 1, hh := 1, mm := 0, sec := 0 } = -5 := by
    decide
  have hsec : (date2gps { y := 1980, m := 1, d := 1, hh := 1, mm := 0, sec := 0 }).sec =
      ((-428400 : ℤ) : ℚ) := by
    rw [date2gps]
    dsimp only
    rw [hde, show (-5 : ℤ).tmod 7 = -5 from by decide]
    norm_num
  have hdiv : ((-428400 : ℤ) : ℚ) / 3600 = ((-119 : ℤ) : ℚ) := by
    push_cast
    norm_num
  have hhh : (gps2date (date2gps { y := 1980, m := 1, d := 1, hh := 1, mm := 0, sec := 0 })).hh =
      -23 := by
    rw [gps2date]
    dsimp only
    rw [hsec, hdiv, ctrunc_intCast]
    decide
  rw [hhh]
  simp

theorem julianYMDN_eq (c : ℕ) : julianYMDN c = (yjP c, moP c, ddP c) := rfl

theorem julianGuardsN_eq (c : ℕ) :
    julianGuardsN c =
      (Nat.ble 123 c && Nat.ble 2442 (20 * c) && Nat.ble (eP c) c &&
        Nat.ble (gP c) (c - eP c) && Nat.ble (1 + 12 * (fP c / 14)) (fP c) &&
        Nat.ble (4715 + (7 + moP c) / 10) (djP c)) := rfl

theorem ctrunc_natCast_div (a b : ℕ) (hb : 0 < b) :
    ctrunc (((a : ℕ) : ℚ) / ((b : ℕ) : ℚ)) = ((a / b : ℕ) : ℤ) := by
  have hbq : (0 : ℚ) < ((b : ℕ) : ℚ) := by exact_mod_cast hb
  rw [ctrunc_of_nonneg (by positivity)]
  have h1 : (((a : ℕ) : ℚ)) = (((a : ℤ) : ℚ)) := by push_cast; ring
  rw [h1, Rat.floor_intCast_div_natCast]
  rw [Int.ofNat_tdiv]
  rfl

theorem julianYMD_bridge (c : ℕ) (hg : julianGuardsN c = true) :
    gps2dateYMD ((c : ℕ) : ℤ) = ((yjP c : ℤ), (moP c : ℤ), (ddP c : ℤ)) := by
  rw [julianGuardsN_eq] at hg
  simp only [Bool.and_eq_true, Nat.ble_eq] at hg
  obtain ⟨⟨⟨⟨⟨h123, h2442⟩, hec⟩, hgce⟩, hf14⟩, hdjb⟩ := hg
  rw [gps2dateYMD]
  have hdj : ctrunc (((((c : ℕ) : ℤ) : ℚ) - 122.1) / 365.25) = ((djP c : ℕ) : ℤ) := by
    have heq : ((((c : ℕ) : ℤ) : ℚ) - 122.1) / 365.25 =
        (((20 * c - 2442 : ℕ) : ℚ)) / ((7305 : ℕ) : ℚ) := by
      rw [Nat.cast_sub h2442]
      push_cast
      rw [div_eq_div_iff (by norm_num) (by norm_num)]
      norm_num
      ring
    rw [heq, ctrunc_natCast_div _ _ (by norm_num)]
    rfl
  rw [hdj]
  have htdiv4 : ((djP c : ℕ) : ℤ).tdiv 4 = ((djP c / 4 : ℕ) : ℤ) := rfl
  rw [htdiv4]
  have he : 365 * ((djP c : ℕ) : ℤ) + ((djP c / 4 : ℕ) : ℤ) = ((eP c : ℕ) : ℤ) := by
    rw [eP]
    push_cast
    ring
  rw [he]
  have hce : ((c : ℕ) : ℤ) - ((eP c : ℕ) : ℤ) = ((c - eP c : ℕ) : ℤ) := by
    rw [Nat.cast_sub hec]
  have hf : ctrunc (((((c : ℕ) : ℤ) - ((eP c : ℕ) : ℤ) : ℤ) : ℚ) / 30.6001) =
      ((fP c : ℕ) : ℤ) := by
    rw [hce]
    have heq : ((((c - eP c : ℕ) : ℤ) : ℚ)) / 30.6001 =
        ((((c - eP c) * 10000 : ℕ) : ℚ)) / ((306001 : ℕ) : ℚ) := by
      push_cast
      rw [div_eq_div_iff (by norm_num) (by norm_num)]
      norm_num
      ring
    rw [heq, ctrunc_natCast_div _ _ (by norm_num)]
    rfl
  rw [hf]
  have hgg : ctrunc ((30.6001 : ℚ) * (((fP c : ℕ) : ℤ) : ℚ)) = ((gP c : ℕ) : ℤ) := by
    have heq : (30.6001 : ℚ) * (((fP c : ℕ) : ℤ) : ℚ) =
        (((306001 * fP c : ℕ) : ℚ)) / ((10000 : ℕ) : ℚ) := by
      push_cast
      rw [eq_div_iff (by norm_num)]
      norm_num
      ring
    rw [heq, ctrunc_natCast_div _ _ (by norm_num)]
    rfl
  rw [hgg]
  have hmo : ((fP c : ℕ) : ℤ) - 1 - 12 * (((fP c : ℕ) : ℤ).tdiv 14) = ((moP c : ℕ) : ℤ) := by
    rw [show ((fP c : ℕ) : ℤ).tdiv 14 = ((fP c / 14 : ℕ) : ℤ) from rfl, moP]
    omega
  rw [hmo]
  refine Prod.ext ?_ (Prod.ext ?_ ?_)
  · show ((djP c : ℕ) : ℤ) - 4715 - ((7 : ℤ) + ((moP c : ℕ) : ℤ)).tdiv 10 = ((yjP c : ℕ) : ℤ)
    rw [show (7 : ℤ) + ((moP c : ℕ) : ℤ) = ((7 + moP c : ℕ) : ℤ) from by push_cast; ring,
      show ((7 + moP c : ℕ) : ℤ).tdiv 10 = (((7 + moP c) / 10 : ℕ) : ℤ) from rfl, yjP]
    omega
  · rfl
  · show ((c : ℕ) : ℤ) - ((eP c : ℕ) : ℤ) - ((gP c : ℕ) : ℤ) = ((ddP c : ℕ) : ℤ)
    rw [ddP]
    omega

theorem nat_add_eq (a b : ℕ) : Nat.add a b = a + b := rfl

theorem nat_mul_eq (a b : ℕ) : Nat.mul a b = a * b := rfl

theorem nat_div_eq (a b : ℕ) : Nat.div a b = a / b := rfl

theorem nat_mod_eq (a b : ℕ) : Nat.mod a b = a % b := rfl

theorem nat_sub_eq (a b : ℕ) : Nat.sub a b = a - b := rfl

theorem nat_beq_eq (a b : ℕ) : (Nat.beq a b = true) = (a = b) := by
  simp [Nat.beq_eq]

theorem nat_ble_eq (a b : ℕ) : (Nat.ble a b = true) = (a ≤ b) := by
  simp [Nat.ble_eq]

theorem nat_blt_eq (a b : ℕ) : (Nat.blt a b = true) = (a < b) := by
  simp [Nat.blt_eq]

theorem doyTab_cast : ∀ i : ℕ, doyTab.getD i 0 = ((doyTabN.getD i 0 : ℕ) : ℤ)
  | 0 => rfl
  | 1 => rfl
  | 2 => rfl
  | 3 => rfl
  | 4 => rfl
  | 5 => rfl
  | 6 => rfl
  | 7 => rfl
  | 8 => rfl
  | 9 => rfl
  | 10 => rfl
  | 11 => rfl
  | (_ + 12) => rfl

theorem date2gpsDe_bridge (y m d : ℕ) (hh mm : ℤ) (sec : ℚ)
    (hy1 : 1980 ≤ y) (hm1 : 1 ≤ m) :
    date2gpsDe { y := (y : ℤ), m := (m : ℤ), d := (d : ℤ), hh := hh, mm := mm, sec := sec } =
      ((preN y m d : ℕ) : ℤ) - 6 := by
  rw [date2gpsDe]
  dsimp only
  have hye : (y : ℤ) - 1980 = ((y - 1980 : ℕ) : ℤ) := by
    rw [Nat.cast_sub hy1]
    norm_num
  rw [hye, show ((y - 1980 : ℕ) : ℤ).tdiv 4 = (((y - 1980) / 4 : ℕ) : ℤ) from rfl,
    show ((y - 1980 : ℕ) : ℤ).tmod 4 = (((y - 1980) % 4 : ℕ) : ℤ) from rfl]
  have hmi : ((m : ℤ) - 1).toNat = m - 1 := by omega
  rw [hmi, doyTab_cast (m - 1), preN]
  split_ifs with hc hb1 hb2
  · simp only [nat_add_eq, nat_mul_eq, nat_sub_eq, nat_div_eq, nat_mod_eq]
    push_cast
    omega
  · rw [Bool.and_eq_true, nat_beq_eq, nat_ble_eq] at hb1
    exact absurd ⟨by exact_mod_cast hc.1, by exact_mod_cast hc.2⟩ hb1
  · rw [Bool.and_eq_true, nat_beq_eq, nat_ble_eq] at hb2
    exact absurd ⟨by exact_mod_cast hb2.1, by exact_mod_cast hb2.2⟩ hc
  · simp only [nat_add_eq, nat_mul_eq, nat_sub_eq, nat_div_eq, nat_mod_eq]
    push_cast
    omega

theorem daysInMonthN_le_31 (y m : ℕ) : daysInMonthN y m ≤ 31 := by
  rw [daysInMonthN]
  split_ifs <;> omega

theorem dateOk_of_valid (y m d : ℕ) (hy1 : 1980 ≤ y) (hy2 : y ≤ 2099)
    (hm1 : 1 ≤ m) (hm2 : m ≤ 12) (hd1 : 1 ≤ d) (hd2 : d ≤ daysInMonthN y m)
    (hpre : ¬(y = 1980 ∧ m = 1 ∧ d < 6)) : dateOkN y m d = true := by
  have h31 := daysInMonthN_le_31 y m
  have h := allDatesOkN_true
  rw [allDatesOkN] at h
  simp only [List.all_eq_true, List.mem_range] at h
  have h1 := h (y - 1980) (by omega) (m - 1) (by omega) (d - 1) (by omega)
  simp only [nat_add_eq] at h1
  rw [show 1980 + (y - 1980) = y from by omega, show 1 + (m - 1) = m from by omega,
    show 1 + (d - 1) = d from by omega] at h1
  simp only [Bool.or_eq_true, Bool.and_eq_true, nat_blt_eq, nat_beq_eq] at h1
  rcases h1 with (h1 | h1) | h1
  · omega
  · exact absurd ⟨h1.1.1, h1.1.2, h1.2⟩ hpre
  · exact h1

theorem floor_mul_add_q (n : ℚ) (hn : 0 < n) (K : ℤ) (T : ℚ) (h0 : 0 ≤ T) (h1 : T < n) :
    ⌊((K : ℚ) * n + T) / n⌋ = K := by
  have : ((K : ℚ) * n + T) / n = T / n + K := by field_simp; ring
  rw [this, Int.floor_add_int, Int.floor_eq_zero_iff.mpr, zero_add]
  constructor
  · positivity
  · rw [div_lt_one hn]
    exact h1

/-- Claim C3 (amended): for every valid Gregorian calendar date with year in
1980..2099 lying on or after the GPS epoch (January 6, 1980), and any
time of day with 0 ≤ hh < 24, 0 ≤ mm < 60, 0 ≤ sec < 60, the roundtrip
gps2date (date2gps t) restores every field of t, the seconds field
exactly (so in particular to within 1 ms). -/
theorem date_roundtrip_amended (y m d hh mm : ℕ) (sec : ℚ)
    (hy1 : 1980 ≤ y) (hy2 : y ≤ 2099) (hm1 : 1 ≤ m) (hm2 : m ≤ 12)
    (hd1 : 1 ≤ d) (hd2 : d ≤ daysInMonthN y m)
    (hpre : ¬(y = 1980 ∧ m = 1 ∧ d < 6))
    (hhb : hh < 24) (hmb : mm < 60) (hs0 : 0 ≤ sec) (hs1 : sec < 60) :
    (gps2date (date2gps ⟨(y : ℤ), (m : ℤ), (d : ℤ), (hh : ℤ), (mm : ℤ), sec⟩)).y = (y : ℤ) ∧
    (gps2date (date2gps ⟨(y : ℤ), (m : ℤ), (d : ℤ), (hh : ℤ), (mm : ℤ), sec⟩)).m = (m : ℤ) ∧
    (gps2date (date2gps ⟨(y : ℤ), (m : ℤ), (d : ℤ), (hh : ℤ), (mm : ℤ), sec⟩)).d = (d : ℤ) ∧
    (gps2date (date2gps ⟨(y : ℤ), (m : ℤ), (d : ℤ), (hh : ℤ), (mm : ℤ), sec⟩)).hh = (hh : ℤ) ∧
    (gps2date (date2gps ⟨(y : ℤ), (m : ℤ), (d : ℤ), (hh : ℤ), (mm : ℤ), sec⟩)).mm = (mm : ℤ) ∧
    (gps2date (date2gps ⟨(y : ℤ), (m : ℤ), (d : ℤ), (hh : ℤ), (mm : ℤ), sec⟩)).sec = sec ∧
    |(gps2date (date2gps ⟨(y : ℤ), (m : ℤ), (d : ℤ), (hh : ℤ), (mm : ℤ), sec⟩)).sec - sec| ≤ 1 / 1000 := by
  have hok := dateOk_of_valid y m d hy1 hy2 hm1 hm2 hd1 hd2 hpre
  rw [dateOkN] at hok
  simp only [Bool.and_eq_true, nat_ble_eq, nat_beq_eq, nat_add_eq, nat_mul_eq,
    nat_div_eq, nat_mod_eq] at hok
  obtain ⟨h6, ⟨⟨hgd, hyy⟩, hmm2⟩, hdd⟩ := hok
  have hde : date2gpsDe ⟨(y : ℤ), (m : ℤ), (d : ℤ), (hh : ℤ), (mm : ℤ), sec⟩ = ((deN y m d : ℕ) : ℤ) := by
    rw [date2gpsDe_bridge y m d ((hh : ℕ) : ℤ) ((mm : ℕ) : ℤ) sec hy1 hm1, deN, nat_sub_eq]
    omega
  have hsec : (date2gps ⟨(y : ℤ), (m : ℤ), (d : ℤ), (hh : ℤ), (mm : ℤ), sec⟩).sec =
      ((deN y m d % 7 : ℕ) : ℚ) * 86400 + (hh : ℚ) * 3600 + (mm : ℚ) * 60 + sec := by
    rw [date2gps]
    dsimp only
    rw [hde, show ((deN y m d : ℕ) : ℤ).tmod 7 = ((deN y m d % 7 : ℕ) : ℤ) from rfl]
    generalize deN y m d % 7 = n7
    push_cast
    ring
  have hweek : (date2gps ⟨(y : ℤ), (m : ℤ), (d : ℤ), (hh : ℤ), (mm : ℤ), sec⟩).week = ((deN y m d / 7 : ℕ) : ℤ) := by
    rw [date2gps]
    dsimp only
    rw [hde, show ((deN y m d : ℕ) : ℤ).tdiv 7 = ((deN y m d / 7 : ℕ) : ℤ) from rfl]
  have h23 : (hh : ℚ) ≤ 23 := by exact_mod_cast Nat.lt_succ_iff.mp hhb
  have h59 : (mm : ℚ) ≤ 59 := by exact_mod_cast Nat.lt_succ_iff.mp hmb
  have hf86400 : ⌊(date2gps ⟨(y : ℤ), (m : ℤ), (d : ℤ), (hh : ℤ), (mm : ℤ), sec⟩).sec / 86400⌋ =
      ((deN y m d % 7 : ℕ) : ℤ) := by
    rw [hsec]
    generalize deN y m d % 7 = n7
    rw [show ((n7 : ℕ) : ℚ) * 86400 + (hh : ℚ) * 3600 + (mm : ℚ) * 60 + sec =
        (((n7 : ℕ) : ℤ) : ℚ) * 86400 + ((hh : ℚ) * 3600 + (mm : ℚ) * 60 + sec)
        from by push_cast; ring]
    apply floor_mul_add_q 86400 (by norm_num)
    · exact add_nonneg (add_nonneg (mul_nonneg (Nat.cast_nonneg hh) (by norm_num))
        (mul_nonneg (Nat.cast_nonneg mm) (by norm_num))) hs0
    · linarith only [h23, h59, hs1]
  have hf3600 : ⌊(date2gps ⟨(y : ℤ), (m : ℤ), (d : ℤ), (hh : ℤ), (mm : ℤ), sec⟩).sec / 3600⌋ =
      ((deN y m d % 7 * 24 + hh : ℕ) : ℤ) := by
    rw [hsec]
    generalize deN y m d % 7 = n7
    rw [show ((n7 : ℕ) : ℚ) * 86400 + (hh : ℚ) * 3600 + (mm : ℚ) * 60 + sec =
        (((n7 * 24 + hh : ℕ) : ℤ) : ℚ) * 3600 + ((mm : ℚ) * 60 + sec)
        from by push_cast; ring]
    apply floor_mul_add_q 3600 (by norm_num)
    · exact add_nonneg (mul_nonneg (Nat.cast_nonneg mm) (by norm_num)) hs0
    · linarith only [h59, hs1]
  have hf60 : ⌊(date2gps ⟨(y : ℤ), (m : ℤ), (d : ℤ), (hh : ℤ), (mm : ℤ), sec⟩).sec / 60⌋ =
      ((deN y m d % 7 * 1440 + hh * 60 + mm : ℕ) : ℤ) := by
    rw [hsec]
    generalize deN y m d % 7 = n7
    rw [show ((n7 : ℕ) : ℚ) * 86400 + (hh : ℚ) * 3600 + (mm : ℚ) * 60 + sec =
        (((n7 * 1440 + hh * 60 + mm : ℕ) : ℤ) : ℚ) * 60 + sec
        from by push_cast; ring]
    apply floor_mul_add_q 60 (by norm_num) _ _ hs0 hs1
  have hsnn : 0 ≤ (date2gps ⟨(y : ℤ), (m : ℤ), (d : ℤ), (hh : ℤ), (mm : ℤ), sec⟩).sec := by
    rw [hsec]
    generalize deN y m d % 7 = n7
    exact add_nonneg (add_nonneg (add_nonneg (mul_nonneg (Nat.cast_nonneg _) (by norm_num))
      (mul_nonneg (Nat.cast_nonneg hh) (by norm_num))) (mul_nonneg (Nat.cast_nonneg mm) (by norm_num))) hs0
  have hceq : 7 * (date2gps ⟨(y : ℤ), (m : ℤ), (d : ℤ), (hh : ℤ), (mm : ℤ), sec⟩).week +
      ⌊(date2gps ⟨(y : ℤ), (m : ℤ), (d : ℤ), (hh : ℤ), (mm : ℤ), sec⟩).sec / 86400⌋ + 2444245 + 1537 =
      ((7 * (deN y m d / 7) + deN y m d % 7 + 2444245 + 1537 : ℕ) : ℤ) := by
    rw [hweek, hf86400]
    generalize deN y m d % 7 = n7
    generalize deN y m d / 7 = q7
    push_cast
    ring
  have hsec_rt : (gps2date (date2gps ⟨(y : ℤ), (m : ℤ), (d : ℤ), (hh : ℤ), (mm : ℤ), sec⟩)).sec = sec := by
    rw [gps2date]
    dsimp only
    rw [hf60, hsec]
    generalize deN y m d % 7 = n7
    push_cast
    ring
  refine ⟨?_, ?_, ?_, ?_, ?_, hsec_rt, ?_⟩
  · rw [gps2date]
    dsimp only
    rw [hceq, julianYMD_bridge _ hgd]
    have h' : yjP (7 * (deN y m d / 7) + deN y m d % 7 + 2444245 + 1537) = y := hyy
    rw [h']
  · rw [gps2date]
    dsimp only
    rw [hceq, julianYMD_bridge _ hgd]
    have h' : moP (7 * (deN y m d / 7) + deN y m d % 7 + 2444245 + 1537) = m := hmm2
    rw [h']
  · rw [gps2date]
    dsimp only
    rw [hceq, julianYMD_bridge _ hgd]
    have h' : ddP (7 * (deN y m d / 7) + deN y m d % 7 + 2444245 + 1537) = d := hdd
    rw [h']
  · rw [gps2date]
    dsimp only
    rw [ctrunc_of_nonneg (div_nonneg hsnn (by norm_num)), hf3600,
      show ((deN y m d % 7 * 24 + hh : ℕ) : ℤ).tmod 24 =
        (((deN y m d % 7 * 24 + hh) % 24 : ℕ) : ℤ) from rfl]
    have h' : (deN y m d % 7 * 24 + hh) % 24 = hh := by omega
    rw [h']
  · rw [gps2date]
    dsimp only
    rw [ctrunc_of_nonneg (div_nonneg hsnn (by norm_num)), hf60,
      show ((deN y m d % 7 * 1440 + hh * 60 + mm : ℕ) : ℤ).tmod 60 =
        (((deN y m d % 7 * 1440 + hh * 60 + mm) % 60 : ℕ) : ℤ) from rfl]
    have h' : (deN y m d % 7 * 1440 + hh * 60 + mm) % 60 = mm := by omega
    rw [h']
  · rw [hsec_rt]
    norm_num

/-- Witness for C3: the leap day 2024-02-29 at 23:59:30.5 survives the roundtrip. -/
theorem date_roundtrip_witness :
    (gps2date (date2gps ⟨((2024 : ℕ) : ℤ), ((2 : ℕ) : ℤ), ((29 : ℕ) : ℤ),
        ((23 : ℕ) : ℤ), ((59 : ℕ) : ℤ), (61 / 2 : ℚ)⟩)).y = ((2024 : ℕ) : ℤ) ∧
    (gps2date (date2gps ⟨((2024 : ℕ) : ℤ), ((2 : ℕ) : ℤ), ((29 : ℕ) : ℤ),
        ((23 : ℕ) : ℤ), ((59 : ℕ) : ℤ), (61 / 2 : ℚ)⟩)).m = ((2 : ℕ) : ℤ) ∧
    (gps2date (date2gps ⟨((2024 : ℕ) : ℤ), ((2 : ℕ) : ℤ), ((29 : ℕ) : ℤ),
        ((23 : ℕ) : ℤ), ((59 : ℕ) : ℤ), (61 / 2 : ℚ)⟩)).d = ((29 : ℕ) : ℤ) ∧
    (gps2date (date2gps ⟨((2024 : ℕ) : ℤ), ((2 : ℕ) : ℤ), ((29 : ℕ) : ℤ),
        ((23 : ℕ) : ℤ), ((59 : ℕ) : ℤ), (61 / 2 : ℚ)⟩)).hh = ((23 : ℕ) : ℤ) ∧
    (gps2date (date2gps ⟨((2024 : ℕ) : ℤ), ((2 : ℕ) : ℤ), ((29 : ℕ) : ℤ),
        ((23 : ℕ) : ℤ), ((59 : ℕ) : ℤ), (61 / 2 : ℚ)⟩)).mm = ((59 : ℕ) : ℤ) ∧
    (gps2date (date2gps ⟨((2024 : ℕ) : ℤ), ((2 : ℕ) : ℤ), ((29 : ℕ) : ℤ),
        ((23 : ℕ) : ℤ), ((59 : ℕ) : ℤ), (61 / 2 : ℚ)⟩)).sec = (61 / 2 : ℚ) ∧
    |(gps2date (date2gps ⟨((2024 : ℕ) : ℤ), ((2 : ℕ) : ℤ), ((29 : ℕ) : ℤ),
        ((23 : ℕ) : ℤ), ((59 : ℕ) : ℤ), (61 / 2 : ℚ)⟩)).sec - (61 / 2 : ℚ)| ≤ 1 / 1000 :=
  date_roundtrip_amended 2024 2 29 23 59 (61 / 2) (by norm_num) (by norm_num) (by norm_num)
    (by norm_num) (by norm_num) (by decide) (by decide) (by norm_num) (by norm_num)
    (by norm_num) (by norm_num)
